import Mathlib

/-!
Verification of the VirtualServer/VirtualServerRoute configuration compiler:
a shallow embedding of the generator (`internal/configs/virtualserver.go`) and
of the validator (`pkg/apis/configuration/validation/validation.go`), together
with theorems about the properties the specification states for them.

Go values are embedded as follows: strings become `String`, ints become `Int`
(`uint16` ports become `Nat`), pointers become `Option`, slices become `List`,
and Go maps that the code only reads by key become Lean functions; Go maps that
the code builds by assignment become association lists updated with
insert-or-replace, which preserves lookup semantics. Calls into external
libraries (k8s.io validation helpers, `regexp.Compile`, `labels.Set.String`)
are parameters of the embedding, collected in the `Ext` structure: every
theorem below holds for an arbitrary interpretation of those externals.
-/

namespace NIC

/-! ## String helpers mirroring the Go standard library functions used -/

/-- `strings.Repeat(s, n)`. -/
def strRepeat (s : String) (n : Nat) : String :=
  String.join (List.replicate n s)

/-- `strings.HasPrefix(s, pfx)`, decided on the character lists. -/
def goHasPrefix (s pfx : String) : Bool :=
  pfx.data.isPrefixOf s.data

/-- `strings.TrimPrefix(s, pfx)`: drops `pfx` when it is a prefix, else returns `s`. -/
def trimPfx (s pfx : String) : String :=
  if goHasPrefix s pfx then String.mk (s.data.drop pfx.length) else s

/-- `strings.SplitN(s, "_", 2)` as used by `validateSpecialVariable`. -/
def splitN2Underscore (s : String) : List String :=
  match s.splitOn "_" with
  | [] => [s]
  | [x] => [x]
  | x :: rest => [x, String.intercalate "_" rest]

/-- Whitespace recognised by Go `unicode.IsSpace` restricted to ASCII, which is
what `strings.Fields` needs on the validated inputs. -/
def goIsSpace (c : Char) : Bool :=
  c = ' ' ∨ c = '\t' ∨ c = '\n' ∨ c = (Char.ofNat 11) ∨ c = (Char.ofNat 12) ∨ c = '\r'

/-- `strings.Fields(s)`: splits around runs of whitespace. -/
def goFields (s : String) : List String :=
  (s.split goIsSpace).filter (fun w => w ≠ "")

/-! ## The `conf_v1` data model (`pkg/apis/configuration/v1/types.go`) -/

/-- `v1.UpstreamBuffers`. -/
structure UpstreamBuffers where
  Number : Int
  Size : String
deriving DecidableEq, Repr

/-- `v1.UpstreamTLS`. -/
structure UpstreamTLS where
  Enable : Bool
deriving DecidableEq, Repr

/-- `v1.Header`. -/
structure Header where
  Name : String
  Value : String
deriving DecidableEq, Repr

/-- `v1.HealthCheck`. -/
structure HealthCheckCr where
  Enable : Bool
  Path : String
  Interval : String
  Jitter : String
  Fails : Int
  Passes : Int
  Port : Int
  TLS : Option UpstreamTLS
  ConnectTimeout : String
  ReadTimeout : String
  SendTimeout : String
  Headers : List Header
  StatusMatch : String
deriving DecidableEq, Repr

/-- `v1.SessionCookie`. -/
structure SessionCookieCr where
  Enable : Bool
  Name : String
  Path : String
  Expires : String
  Domain : String
  HTTPOnly : Bool
  Secure : Bool
deriving DecidableEq, Repr

/-- `v1.UpstreamQueue`. -/
structure UpstreamQueue where
  Size : Int
  Timeout : String
deriving DecidableEq, Repr

/-- `v1.Upstream`. The Go `Subselector` map is carried as an association list;
only the external `labels.Set(...).String()` canonicalisation consumes it. -/
structure UpstreamCr where
  Name : String
  Service : String
  Subselector : List (String × String)
  Port : Nat
  LBMethod : String
  FailTimeout : String
  MaxFails : Option Int
  MaxConns : Option Int
  Keepalive : Option Int
  ProxyConnectTimeout : String
  ProxyReadTimeout : String
  ProxySendTimeout : String
  ProxyNextUpstream : String
  ProxyNextUpstreamTimeout : String
  ProxyNextUpstreamTries : Int
  ProxyBuffering : Option Bool
  ProxyBuffers : Option UpstreamBuffers
  ProxyBufferSize : String
  ClientMaxBodySize : String
  TLS : UpstreamTLS
  HealthCheck : Option HealthCheckCr
  SlowStart : String
  Queue : Option UpstreamQueue
  SessionCookie : Option SessionCookieCr
deriving DecidableEq, Repr

/-- The zero value of `v1.Upstream`, produced by a Go map lookup miss. -/
def UpstreamCr.zero : UpstreamCr where
  Name := ""
  Service := ""
  Subselector := []
  Port := 0
  LBMethod := ""
  FailTimeout := ""
  MaxFails := none
  MaxConns := none
  Keepalive := none
  ProxyConnectTimeout := ""
  ProxyReadTimeout := ""
  ProxySendTimeout := ""
  ProxyNextUpstream := ""
  ProxyNextUpstreamTimeout := ""
  ProxyNextUpstreamTries := 0
  ProxyBuffering := none
  ProxyBuffers := none
  ProxyBufferSize := ""
  ClientMaxBodySize := ""
  TLS := ⟨false⟩
  HealthCheck := none
  SlowStart := ""
  Queue := none
  SessionCookie := none

/-- `v1.ActionRedirect`. -/
structure ActionRedirect where
  URL : String
  Code : Int
deriving DecidableEq, Repr

/-- `v1.ActionReturn`. The Go field `Type` is spelled `Typ` because `Type` is
reserved in Lean. -/
structure ActionReturn where
  Code : Int
  Typ : String
  Body : String
deriving DecidableEq, Repr

/-- `v1.Action`. -/
structure ActionCr where
  Pass : String
  Redirect : Option ActionRedirect
  Return : Option ActionReturn
deriving DecidableEq, Repr

/-- The zero value of `v1.Action`; stands in for a nil `*Action` dereference,
which validated inputs never reach. -/
def ActionCr.zero : ActionCr := ⟨"", none, none⟩

/-- `v1.Split`. -/
structure SplitCr where
  Weight : Int
  Action : Option ActionCr
deriving DecidableEq, Repr

/-- `v1.Condition`. -/
structure ConditionCr where
  Header : String
  Cookie : String
  Argument : String
  Variable : String
  Value : String
deriving DecidableEq, Repr

/-- `v1.Match`. -/
structure MatchCr where
  Conditions : List ConditionCr
  Action : Option ActionCr
  Splits : List SplitCr
deriving DecidableEq, Repr

/-- `v1.Route`. -/
structure RouteCr where
  Path : String
  Route : String
  Action : Option ActionCr
  Splits : List SplitCr
  Matches : List MatchCr
deriving DecidableEq, Repr

/-- `v1.TLSRedirect`. -/
structure TLSRedirectCr where
  Enable : Bool
  Code : Option Int
  BasedOn : String
deriving DecidableEq, Repr

/-- `v1.TLS`. -/
structure TLSCr where
  Secret : String
  Redirect : Option TLSRedirectCr
deriving DecidableEq, Repr

/-- `v1.VirtualServerSpec`. -/
structure VirtualServerSpec where
  Host : String
  TLS : Option TLSCr
  Upstreams : List UpstreamCr
  Routes : List RouteCr
deriving DecidableEq, Repr

/-- `v1.VirtualServer` (the `ObjectMeta` fields the generator reads). -/
structure VirtualServerCr where
  Namespace : String
  Name : String
  Spec : VirtualServerSpec
deriving DecidableEq, Repr

/-- `v1.VirtualServerRouteSpec`. -/
structure VirtualServerRouteSpec where
  Host : String
  Upstreams : List UpstreamCr
  Subroutes : List RouteCr
deriving DecidableEq, Repr

/-- `v1.VirtualServerRoute`. -/
structure VirtualServerRouteCr where
  Namespace : String
  Name : String
  Spec : VirtualServerRouteSpec
deriving DecidableEq, Repr

/-! ## The `version2` output model (configs/version2 types) -/

/-- `version2.UpstreamServer`. -/
structure UpstreamServer where
  Address : String
deriving DecidableEq, Repr

/-- `version2.Queue`. -/
structure QueueV2 where
  Size : Int
  Timeout : String
deriving DecidableEq, Repr

/-- `version2.SessionCookie`. -/
structure SessionCookieV2 where
  Enable : Bool
  Name : String
  Path : String
  Expires : String
  Domain : String
  HTTPOnly : Bool
  Secure : Bool
deriving DecidableEq, Repr

/-- `version2.Upstream`. -/
structure UpstreamV2 where
  Name : String
  Servers : List UpstreamServer
  LBMethod : String
  Resolve : Bool
  Keepalive : Int
  MaxFails : Int
  MaxConns : Int
  SlowStart : String
  FailTimeout : String
  UpstreamZoneSize : String
  Queue : Option QueueV2
  SessionCookie : Option SessionCookieV2
deriving DecidableEq, Repr

/-- `version2.SSL`. -/
structure SSLV2 where
  HTTP2 : Bool
  Certificate : String
  CertificateKey : String
  Ciphers : String
deriving DecidableEq, Repr

/-- `version2.Return`. -/
structure ReturnV2 where
  Code : Int
  Text : String
deriving DecidableEq, Repr

/-- `version2.Location`. -/
structure LocationV2 where
  Path : String
  Snippets : List String
  ProxyConnectTimeout : String
  ProxyReadTimeout : String
  ProxySendTimeout : String
  ClientMaxBodySize : String
  ProxyMaxTempFileSize : String
  ProxyBuffering : Bool
  ProxyBuffers : String
  ProxyBufferSize : String
  ProxyPass : String
  ProxyNextUpstream : String
  ProxyNextUpstreamTimeout : String
  ProxyNextUpstreamTries : Int
  HasKeepalive : Bool
  DefaultType : String
  Return : Option ReturnV2
deriving DecidableEq, Repr

/-- `version2.Distribution`. -/
structure Distribution where
  Weight : String
  Value : String
deriving DecidableEq, Repr

/-- `version2.SplitClient`. -/
structure SplitClient where
  Source : String
  Variable : String
  Distributions : List Distribution
deriving DecidableEq, Repr

/-- `version2.InternalRedirectLocation`. -/
structure InternalRedirectLocation where
  Path : String
  Destination : String
deriving DecidableEq, Repr

/-- `version2.Parameter`. -/
structure ParameterV2 where
  Value : String
  Result : String
deriving DecidableEq, Repr

/-- `version2.Map`. -/
structure MapV2 where
  Source : String
  Variable : String
  Parameters : List ParameterV2
deriving DecidableEq, Repr

/-- `version2.StatusMatch`. -/
structure StatusMatchV2 where
  Name : String
  Code : String
deriving DecidableEq, Repr

/-- `version2.HealthCheck`; the Go `Headers` map is an association list built
by insert-or-replace, mirroring Go map assignment. -/
structure HealthCheckV2 where
  Name : String
  URI : String
  Interval : String
  Jitter : String
  Fails : Int
  Passes : Int
  Port : Int
  ProxyPass : String
  ProxyConnectTimeout : String
  ProxyReadTimeout : String
  ProxySendTimeout : String
  Headers : List (String × String)
  Match : String
deriving DecidableEq, Repr

/-- `version2.TLSRedirect`. -/
structure TLSRedirectV2 where
  Code : Int
  BasedOn : String
deriving DecidableEq, Repr

/-- `version2.Server`. -/
structure ServerV2 where
  ServerName : String
  StatusZone : String
  ProxyProtocol : Bool
  SSL : Option SSLV2
  ServerTokens : String
  RealIPHeader : String
  SetRealIPFrom : List String
  RealIPRecursive : Bool
  Snippets : List String
  InternalRedirectLocations : List InternalRedirectLocation
  Locations : List LocationV2
  HealthChecks : List HealthCheckV2
  TLSRedirect : Option TLSRedirectV2
deriving DecidableEq, Repr

/-- `version2.VirtualServerConfig`. -/
structure VirtualServerConfig where
  Server : ServerV2
  Upstreams : List UpstreamV2
  SplitClients : List SplitClient
  Maps : List MapV2
  StatusMatches : List StatusMatchV2
deriving DecidableEq, Repr

/-! ## Externals, owners, warnings, configuration parameters -/

/-- External library functions the embedded code calls. Each field stands for
a function outside this repository (k8s.io validation helpers, Go `regexp`,
label-set canonicalisation); the theorems hold for every interpretation. -/
structure Ext where
  labelsSetString : List (String × String) → String
  regexCompileOk : String → Bool
  isDNS1035Label : String → List String
  isDNS1123Subdomain : String → List String
  isHTTPHeaderName : String → List String
  isQualifiedName : String → List String

/-- Identity of a `runtime.Object` owning a warning: the VirtualServer itself
or the i-th VirtualServerRoute of the snapshot (Go keys the warnings map by
pointer, so distinct list entries are distinct keys). -/
inductive Owner where
  | vs : Owner
  | vsr (i : Nat) : Owner
deriving DecidableEq, Repr

/-- Warnings accumulated in execution order; the Go `Warnings` map keyed by
owner is recovered by grouping, which two equal lists do equally. -/
abbrev WarningList := List (Owner × String)

/-- The fields of `configs.ConfigParams` that `virtualserver.go` reads.
The full struct lives outside the provided sources; the field set and types
are exactly those the generator dereferences. -/
structure ConfigParams where
  LBMethod : String
  Keepalive : Int
  MaxFails : Int
  FailTimeout : String
  MaxConns : Int
  UpstreamZoneSize : String
  ProxyConnectTimeout : String
  ProxyReadTimeout : String
  ProxySendTimeout : String
  ClientMaxBodySize : String
  ProxyMaxTempFileSize : String
  ProxyBuffering : Bool
  ProxyBuffers : String
  ProxyBufferSize : String
  LocationSnippets : List String
  ServerSnippets : List String
  ProxyProtocol : Bool
  ServerTokens : String
  SetRealIPFrom : List String
  RealIPHeader : String
  RealIPRecursive : Bool
  HTTP2 : Bool
deriving DecidableEq, Repr

/-- `configs.VirtualServerEx`: the input snapshot. The endpoints table and the
ExternalName set are read-only key lookups in the source and are embedded as
functions (a missing key yields the Go zero values `[]` and `false`). -/
structure VirtualServerEx where
  VirtualServer : VirtualServerCr
  Endpoints : String → List String
  VirtualServerRoutes : List VirtualServerRouteCr
  ExternalNameSvcs : String → Bool

/-! ## Association-list helpers standing for Go map writes and reads -/

/-- Go map assignment `m[k] = v`: replace an existing binding or append. -/
def upsert {α : Type} (l : List (String × α)) (k : String) (v : α) : List (String × α) :=
  match l with
  | [] => [(k, v)]
  | (k₁, v₁) :: rest => if k₁ = k then (k, v) :: rest else (k₁, v₁) :: upsert rest k v

/-- Go map read `m[k]` with the zero value `d` on a miss. -/
def alookup {α : Type} (l : List (String × α)) (k : String) (d : α) : α :=
  match l.find? (fun p => p.1 = k) with
  | some p => p.2
  | none => d

/-! ## Generator constants and name algebra (`virtualserver.go`) -/

/-- `nginx502Server`: the sentinel unreachable socket used in OSS when an
upstream has no endpoints. -/
def nginx502Server : String := "unix:/var/lib/nginx/nginx-502-server.sock"

/-- Modelled from the spec: `pemFileNameForMissingTLSSecret`, the sentinel
missing-TLS-secret pem filename referenced by `generateSSLConfig`; the constant
itself is declared in a `configs` file outside the provided sources. -/
def pemFileNameForMissingTLSSecret : String := "/etc/nginx/secrets/default"

/-- `incompatibleLBMethodsForSlowStart` (a constant Go set, embedded as the
list of its members). -/
def incompatibleLBMethodsForSlowStart : List String :=
  ["random", "ip_hash", "random two", "random two least_conn",
   "random two least_time=header", "random two least_time=last_byte"]

/-- `GenerateEndpointsKey`. -/
def generateEndpointsKey (ext : Ext) (serviceNamespace serviceName : String)
    (subselector : List (String × String)) (port : Nat) : String :=
  if subselector.length > 0 then
    serviceNamespace ++ "/" ++ serviceName ++ "_" ++ ext.labelsSetString subselector
      ++ ":" ++ toString port
  else
    serviceNamespace ++ "/" ++ serviceName ++ ":" ++ toString port

/-- `GenerateExternalNameSvcKey`. -/
def generateExternalNameSvcKey (ns service : String) : String :=
  ns ++ "/" ++ service

/-- `upstreamNamer`. -/
structure UpstreamNamer where
  pfx : String
deriving DecidableEq, Repr

/-- `newUpstreamNamerForVirtualServer`. -/
def newUpstreamNamerForVirtualServer (vs : VirtualServerCr) : UpstreamNamer :=
  ⟨"vs_" ++ vs.Namespace ++ "_" ++ vs.Name⟩

/-- `newUpstreamNamerForVirtualServerRoute`. -/
def newUpstreamNamerForVirtualServerRoute (vs : VirtualServerCr)
    (vsr : VirtualServerRouteCr) : UpstreamNamer :=
  ⟨"vs_" ++ vs.Namespace ++ "_" ++ vs.Name ++ "_vsr_" ++ vsr.Namespace ++ "_" ++ vsr.Name⟩

/-- `upstreamNamer.GetNameForUpstream`. -/
def getNameForUpstream (namer : UpstreamNamer) (upstream : String) : String :=
  namer.pfx ++ "_" ++ upstream

/-- `variableNamer`. -/
structure VariableNamer where
  safeNsName : String
deriving DecidableEq, Repr

/-- `newVariableNamer`. -/
def newVariableNamer (vs : VirtualServerCr) : VariableNamer :=
  ⟨(vs.Namespace ++ "_" ++ vs.Name).replace "-" "_"⟩

/-- `variableNamer.GetNameForSplitClientVariable`. -/
def getNameForSplitClientVariable (vn : VariableNamer) (index : Nat) : String :=
  "$vs_" ++ vn.safeNsName ++ "_splits_" ++ toString index

/-- `variableNamer.GetNameForVariableForMatchesRouteMap`. -/
def getNameForVariableForMatchesRouteMap (vn : VariableNamer)
    (matchesIndex matchIndex conditionIndex : Nat) : String :=
  "$vs_" ++ vn.safeNsName ++ "_matches_" ++ toString matchesIndex
    ++ "_match_" ++ toString matchIndex ++ "_cond_" ++ toString conditionIndex

/-- `variableNamer.GetNameForVariableForMatchesRouteMainMap`. -/
def getNameForVariableForMatchesRouteMainMap (vn : VariableNamer)
    (matchesIndex : Nat) : String :=
  "$vs_" ++ vn.safeNsName ++ "_matches_" ++ toString matchesIndex

/-! ## Lowering primitives (`virtualserver.go`) -/

/-- `generateLBMethod`. -/
def generateLBMethod (method defaultMethod : String) : String :=
  if method = "" then defaultMethod
  else if method = "round_robin" then ""
  else method

/-- `generateIntFromPointer`. -/
def generateIntFromPointer (n : Option Int) (defaultN : Int) : Int :=
  match n with
  | none => defaultN
  | some v => v

/-- `upstreamHasKeepalive`. -/
def upstreamHasKeepalive (upstream : UpstreamCr) (cfgParams : ConfigParams) : Bool :=
  match upstream.Keepalive with
  | some k => k ≠ 0
  | none => cfgParams.Keepalive ≠ 0

/-- `generateProxyPassProtocol`. -/
def generateProxyPassProtocol (enableTLS : Bool) : String :=
  if enableTLS then "https" else "http"

/-- `generateString`. -/
def generateString (s defaultS : String) : String :=
  if s = "" then defaultS else s

/-- `generateBuffers`. -/
def generateBuffers (s : Option UpstreamBuffers) (defaultS : String) : String :=
  match s with
  | none => defaultS
  | some b => toString b.Number ++ " " ++ b.Size

/-- `generateBool`. -/
def generateBool (s : Option Bool) (defaultS : Bool) : Bool :=
  match s with
  | some b => b
  | none => defaultS

/-- `generatePath`. -/
def generatePath (path : String) : String :=
  if goHasPrefix path "~*" then
    "~* \"" ++ trimPfx (trimPfx path "~*") " " ++ "\""
  else if goHasPrefix path "~" then
    "~ \"" ++ trimPfx (trimPfx path "~") " " ++ "\""
  else path

/-- `generateReturnBlock`. -/
def generateReturnBlock (text : String) (code defaultCode : Int) : ReturnV2 :=
  if code ≠ 0 then ⟨code, text⟩ else ⟨defaultCode, text⟩

/-- `generateLocationForProxying`. -/
def generateLocationForProxying (path upstreamName : String) (upstream : UpstreamCr)
    (cfgParams : ConfigParams) : LocationV2 where
  Path := generatePath path
  Snippets := cfgParams.LocationSnippets
  ProxyConnectTimeout := generateString upstream.ProxyConnectTimeout cfgParams.ProxyConnectTimeout
  ProxyReadTimeout := generateString upstream.ProxyReadTimeout cfgParams.ProxyReadTimeout
  ProxySendTimeout := generateString upstream.ProxySendTimeout cfgParams.ProxySendTimeout
  ClientMaxBodySize := generateString upstream.ClientMaxBodySize cfgParams.ClientMaxBodySize
  ProxyMaxTempFileSize := cfgParams.ProxyMaxTempFileSize
  ProxyBuffering := generateBool upstream.ProxyBuffering cfgParams.ProxyBuffering
  ProxyBuffers := generateBuffers upstream.ProxyBuffers cfgParams.ProxyBuffers
  ProxyBufferSize := generateString upstream.ProxyBufferSize cfgParams.ProxyBufferSize
  ProxyPass := generateProxyPassProtocol upstream.TLS.Enable ++ "://" ++ upstreamName
  ProxyNextUpstream := generateString upstream.ProxyNextUpstream "error timeout"
  ProxyNextUpstreamTimeout := generateString upstream.ProxyNextUpstreamTimeout "0s"
  ProxyNextUpstreamTries := upstream.ProxyNextUpstreamTries
  HasKeepalive := upstreamHasKeepalive upstream cfgParams
  DefaultType := ""
  Return := none

/-- `generateLocationForReturnBlock`. -/
def generateLocationForReturnBlock (path : String) (locationSnippets : List String)
    (r : ReturnV2) (defaultType : String) : LocationV2 where
  Path := path
  Snippets := locationSnippets
  ProxyConnectTimeout := ""
  ProxyReadTimeout := ""
  ProxySendTimeout := ""
  ClientMaxBodySize := ""
  ProxyMaxTempFileSize := ""
  ProxyBuffering := false
  ProxyBuffers := ""
  ProxyBufferSize := ""
  ProxyPass := ""
  ProxyNextUpstream := ""
  ProxyNextUpstreamTimeout := ""
  ProxyNextUpstreamTries := 0
  HasKeepalive := false
  DefaultType := defaultType
  Return := some r

/-- `generateLocation`. -/
def generateLocation (path upstreamName : String) (upstream : UpstreamCr)
    (action : ActionCr) (cfgParams : ConfigParams) : LocationV2 :=
  match action.Redirect with
  | some redirect =>
      generateLocationForReturnBlock path cfgParams.LocationSnippets
        (generateReturnBlock redirect.URL redirect.Code 301) ""
  | none =>
    match action.Return with
    | some ret =>
        let defaultType := if ret.Typ = "" then "text/plain" else ret.Typ
        generateLocationForReturnBlock path cfgParams.LocationSnippets
          (generateReturnBlock ret.Body ret.Code 200) defaultType
    | none => generateLocationForProxying path upstreamName upstream cfgParams

/-- `generateSessionCookie`. -/
def generateSessionCookie (sc : Option SessionCookieCr) : Option SessionCookieV2 :=
  match sc with
  | none => none
  | some c =>
    if ¬c.Enable then none
    else some ⟨true, c.Name, c.Path, c.Expires, c.Domain, c.HTTPOnly, c.Secure⟩

/-- `generateStatusMatchName`. -/
def generateStatusMatchName (upstreamName : String) : String :=
  upstreamName ++ "_match"

/-- `generateUpstreamStatusMatch`. -/
def generateUpstreamStatusMatch (upstreamName status : String) : StatusMatchV2 :=
  ⟨generateStatusMatchName upstreamName, status⟩

/-- `generateQueueForPlus`. -/
def generateQueueForPlus (upstreamQueue : Option UpstreamQueue)
    (defaultTimeout : String) : Option QueueV2 :=
  match upstreamQueue with
  | none => none
  | some q => some ⟨q.Size, generateString q.Timeout defaultTimeout⟩

/-- `newHealthCheckWithDefaults`. -/
def newHealthCheckWithDefaults (upstream : UpstreamCr) (upstreamName : String)
    (cfgParams : ConfigParams) : HealthCheckV2 where
  Name := upstreamName
  URI := "/"
  Interval := "5s"
  Jitter := "0s"
  Fails := 1
  Passes := 1
  Port := Int.ofNat upstream.Port
  ProxyPass := generateProxyPassProtocol upstream.TLS.Enable ++ "://" ++ upstreamName
  ProxyConnectTimeout := generateString upstream.ProxyConnectTimeout cfgParams.ProxyConnectTimeout
  ProxyReadTimeout := generateString upstream.ProxyReadTimeout cfgParams.ProxyReadTimeout
  ProxySendTimeout := generateString upstream.ProxySendTimeout cfgParams.ProxySendTimeout
  Headers := []
  Match := ""

/-- `generateHealthCheck`. -/
def generateHealthCheck (upstream : UpstreamCr) (upstreamName : String)
    (cfgParams : ConfigParams) : Option HealthCheckV2 :=
  match upstream.HealthCheck with
  | none => none
  | some h =>
    if ¬h.Enable then none
    else
      let hc := newHealthCheckWithDefaults upstream upstreamName cfgParams
      let hc := if h.Path ≠ "" then { hc with URI := h.Path } else hc
      let hc := if h.Interval ≠ "" then { hc with Interval := h.Interval } else hc
      let hc := if h.Jitter ≠ "" then { hc with Jitter := h.Jitter } else hc
      let hc := if h.Fails > 0 then { hc with Fails := h.Fails } else hc
      let hc := if h.Passes > 0 then { hc with Passes := h.Passes } else hc
      let hc := if h.Port > 0 then { hc with Port := h.Port } else hc
      let hc := if h.ConnectTimeout ≠ "" then { hc with ProxyConnectTimeout := h.ConnectTimeout } else hc
      let hc := if h.ReadTimeout ≠ "" then { hc with ProxyReadTimeout := h.ReadTimeout } else hc
      let hc := if h.SendTimeout ≠ "" then { hc with ProxySendTimeout := h.SendTimeout } else hc
      let hc := { hc with Headers := h.Headers.foldl (fun acc hd => upsert acc hd.Name hd.Value) hc.Headers }
      let hc := match h.TLS with
        | some t => { hc with ProxyPass := generateProxyPassProtocol t.Enable ++ "://" ++ upstreamName }
        | none => hc
      let hc := if h.StatusMatch ≠ "" then { hc with Match := generateStatusMatchName upstreamName } else hc
      some hc

/-- The warning text of `generateEndpointsForUpstream` (with the source's
"ExternaName" typo preserved). -/
def externalNameWarningMsg (service upstreamName : String) : String :=
  "Type ExternalName service " ++ service ++ " in upstream " ++ upstreamName
    ++ " will be ignored. To use ExternaName services, a resolver must be configured in the ConfigMap"

/-- `virtualServerConfigurator.generateEndpointsForUpstream`; the second
component is the list of warnings it adds to `vsc.warnings`. -/
def generateEndpointsForUpstream (ext : Ext) (isPlus isResolverConfigured : Bool)
    (owner : Owner) (ns : String) (upstream : UpstreamCr) (vsx : VirtualServerEx) :
    List String × WarningList :=
  let endpointsKey := generateEndpointsKey ext ns upstream.Service upstream.Subselector upstream.Port
  let externalNameSvcKey := generateExternalNameSvcKey ns upstream.Service
  let endpoints := vsx.Endpoints endpointsKey
  if ¬isPlus ∧ endpoints.length = 0 then
    ([nginx502Server], [])
  else
    let isExternalNameSvc := vsx.ExternalNameSvcs externalNameSvcKey
    if isExternalNameSvc ∧ ¬isResolverConfigured then
      ([], [(owner, externalNameWarningMsg upstream.Service upstream.Name)])
    else
      (endpoints, [])

/-- The warning text of `generateSlowStartForPlus`. -/
def slowStartWarningMsg (upstreamName lbMethod : String) : String :=
  "Slow start will be disabled for upstream " ++ upstreamName
    ++ " because lb method \x27" ++ lbMethod ++ "\x27 is incompatible with slow start"

/-- `virtualServerConfigurator.generateSlowStartForPlus`; the second component
is the list of warnings it adds. -/
def generateSlowStartForPlus (owner : Owner) (upstream : UpstreamCr)
    (lbMethod : String) : String × WarningList :=
  if upstream.SlowStart = "" then ("", [])
  else
    let isIncompatible := incompatibleLBMethodsForSlowStart.contains lbMethod
    let isHash := goHasPrefix lbMethod "hash"
    if isIncompatible ∨ isHash then
      ("", [(owner, slowStartWarningMsg upstream.Name lbMethod)])
    else
      (upstream.SlowStart, [])

/-- `virtualServerConfigurator.generateUpstream`; the second component is the
list of warnings it adds. -/
def generateUpstream (isPlus : Bool) (cfgParams : ConfigParams) (owner : Owner)
    (upstreamName : String) (upstream : UpstreamCr) (isExternalNameSvc : Bool)
    (endpoints : List String) : UpstreamV2 × WarningList :=
  let upsServers := endpoints.map (fun e => UpstreamServer.mk e)
  let lbMethod := generateLBMethod upstream.LBMethod cfgParams.LBMethod
  let ups : UpstreamV2 :=
    { Name := upstreamName
      Servers := upsServers
      Resolve := isExternalNameSvc
      LBMethod := lbMethod
      Keepalive := generateIntFromPointer upstream.Keepalive cfgParams.Keepalive
      MaxFails := generateIntFromPointer upstream.MaxFails cfgParams.MaxFails
      FailTimeout := generateString upstream.FailTimeout cfgParams.FailTimeout
      MaxConns := generateIntFromPointer upstream.MaxConns cfgParams.MaxConns
      UpstreamZoneSize := cfgParams.UpstreamZoneSize
      SlowStart := ""
      Queue := none
      SessionCookie := none }
  if isPlus then
    let ss := generateSlowStartForPlus owner upstream lbMethod
    ({ ups with
        SlowStart := ss.1
        Queue := generateQueueForPlus upstream.Queue "60s"
        SessionCookie := generateSessionCookie upstream.SessionCookie }, ss.2)
  else
    (ups, [])

/-- `generateSSLConfig`. -/
def generateSSLConfig (tls : Option TLSCr) (tlsPemFileName : String)
    (cfgParams : ConfigParams) : Option SSLV2 :=
  match tls with
  | none => none
  | some t =>
    if t.Secret = "" then none
    else
      let name := if tlsPemFileName ≠ "" then tlsPemFileName else pemFileNameForMissingTLSSecret
      let ciphers := if tlsPemFileName ≠ "" then "" else "NULL"
      some ⟨cfgParams.HTTP2, name, name, ciphers⟩

/-- `generateTLSRedirectBasedOn`. -/
def generateTLSRedirectBasedOn (basedOn : String) : String :=
  if basedOn = "x-forwarded-proto" then "$http_x_forwarded_proto" else "$scheme"

/-- `generateTLSRedirectConfig`. -/
def generateTLSRedirectConfig (tls : Option TLSCr) : Option TLSRedirectV2 :=
  match tls with
  | none => none
  | some t =>
    match t.Redirect with
    | none => none
    | some r =>
      if ¬r.Enable then none
      else some ⟨generateIntFromPointer r.Code 301, generateTLSRedirectBasedOn r.BasedOn⟩

/-! ## Routing compiler (`virtualserver.go`) -/

/-- `routingCfg`. -/
structure RoutingCfg where
  Maps : List MapV2
  SplitClients : List SplitClient
  Locations : List LocationV2
  InternalRedirectLocation : InternalRedirectLocation
deriving Repr

/-- `generateSplits`. -/
def generateSplits (splits : List SplitCr) (upsNamer : UpstreamNamer)
    (crUpstreams : List (String × UpstreamCr)) (vn : VariableNamer) (scIndex : Nat)
    (cfgParams : ConfigParams) : SplitClient × List LocationV2 :=
  let distributions := splits.mapIdx (fun i s =>
    Distribution.mk (toString s.Weight ++ "%")
      ("@splits_" ++ toString scIndex ++ "_split_" ++ toString i))
  let splitClient : SplitClient :=
    ⟨"$request_id", getNameForSplitClientVariable vn scIndex, distributions⟩
  let locations := splits.mapIdx (fun i s =>
    let path := "@splits_" ++ toString scIndex ++ "_split_" ++ toString i
    let action := s.Action.getD ActionCr.zero
    let upstreamName := getNameForUpstream upsNamer action.Pass
    let upstream := alookup crUpstreams upstreamName UpstreamCr.zero
    generateLocation path upstreamName upstream action cfgParams)
  (splitClient, locations)

/-- `generateDefaultSplitsConfig`. -/
def generateDefaultSplitsConfig (route : RouteCr) (upsNamer : UpstreamNamer)
    (crUpstreams : List (String × UpstreamCr)) (vn : VariableNamer) (scIndex : Nat)
    (cfgParams : ConfigParams) : RoutingCfg :=
  let scLocs := generateSplits route.Splits upsNamer crUpstreams vn scIndex cfgParams
  let splitClientVarName := getNameForSplitClientVariable vn scIndex
  { Maps := []
    SplitClients := [scLocs.1]
    Locations := scLocs.2
    InternalRedirectLocation := ⟨route.Path, splitClientVarName⟩ }

/-- `specialMapParameters` (a constant Go set, embedded as the list of its
members). -/
def specialMapParameters : List String :=
  ["default", "hostnames", "include", "volatile"]

/-- `generateValueForMatchesRouteMap`. -/
def generateValueForMatchesRouteMap (matchedValue : String) : String × Bool :=
  if matchedValue.length = 0 then ("\"\"", false)
  else
    let isNegative := matchedValue.front = '!'
    let mv := if isNegative then matchedValue.drop 1 else matchedValue
    if mv ∈ specialMapParameters then ("\\" ++ mv, isNegative)
    else ("\"" ++ mv ++ "\"", isNegative)

/-- `generateParametersForMatchesRouteMap`. -/
def generateParametersForMatchesRouteMap (matchedValue successfulResult : String) :
    List ParameterV2 :=
  let vi := generateValueForMatchesRouteMap matchedValue
  let valueResult := if vi.2 then "0" else successfulResult
  let defaultResult := if vi.2 then successfulResult else "0"
  [⟨vi.1, valueResult⟩, ⟨"default", defaultResult⟩]

/-- `getNameForSourceForMatchesRouteMapFromCondition`. -/
def getNameForSourceForMatchesRouteMapFromCondition (condition : ConditionCr) : String :=
  if condition.Header ≠ "" then "$http_" ++ condition.Header.replace "-" "_"
  else if condition.Cookie ≠ "" then "$cookie_" ++ condition.Cookie
  else if condition.Argument ≠ "" then "$arg_" ++ condition.Argument
  else condition.Variable

/-- The inner loop of `generateMatchesConfig` over the conditions of the
`i`-th match: `j` is the running condition index and `total` is
`len(m.Conditions)`. -/
def condMapsForMatchAux (vn : VariableNamer) (index i total : Nat) :
    Nat → List ConditionCr → List MapV2
  | _j, [] => []
  | j, c :: rest =>
    let source := getNameForSourceForMatchesRouteMapFromCondition c
    let mapVar := getNameForVariableForMatchesRouteMap vn index i j
    let successfulResult :=
      if j < total - 1 then getNameForVariableForMatchesRouteMap vn index i (j + 1) else "1"
    let params := generateParametersForMatchesRouteMap c.Value successfulResult
    ⟨source, mapVar, params⟩ :: condMapsForMatchAux vn index i total (j + 1) rest

/-- The outer loop of `generateMatchesConfig` generating all per-condition
maps, with `i` the running match index. -/
def matchesCondMapsAux (vn : VariableNamer) (index : Nat) :
    Nat → List MatchCr → List MapV2
  | _i, [] => []
  | i, m :: rest =>
    condMapsForMatchAux vn index i m.Conditions.length 0 m.Conditions
      ++ matchesCondMapsAux vn index (i + 1) rest

/-- The source expression of the main map: the concatenation of every match's
first-condition variable. -/
def mainMapSource (vn : VariableNamer) (index : Nat) (ms : List MatchCr) : String :=
  String.join (ms.mapIdx (fun i _ => getNameForVariableForMatchesRouteMap vn index i 0))

/-- The main-map parameter loop of `generateMatchesConfig`: `i` is the running
match index and `scLocal` the running local split-client counter. -/
def mainMapParamsAux (vn : VariableNamer) (index scIndex : Nat) :
    Nat → Nat → List MatchCr → List ParameterV2
  | _i, _scLocal, [] => []
  | i, scLocal, m :: rest =>
    let v := "~^" ++ strRepeat "0" i ++ "1"
    if ¬m.Splits.isEmpty then
      ⟨v, getNameForSplitClientVariable vn (scIndex + scLocal)⟩
        :: mainMapParamsAux vn index scIndex (i + 1) (scLocal + 1) rest
    else
      ⟨v, "@matches_" ++ toString index ++ "_match_" ++ toString i⟩
        :: mainMapParamsAux vn index scIndex (i + 1) scLocal rest

/-- The number of matches carrying nested splits: the value of the local
split-client counter after either loop of `generateMatchesConfig`. -/
def countMatchesWithSplits (ms : List MatchCr) : Nat :=
  (ms.filter (fun m => ¬m.Splits.isEmpty)).length

/-- The second loop of `generateMatchesConfig`, generating per-match locations
and nested split-clients. -/
def matchLocationsAux (upsNamer : UpstreamNamer) (crUpstreams : List (String × UpstreamCr))
    (vn : VariableNamer) (cfgParams : ConfigParams) (index scIndex : Nat) :
    Nat → Nat → List MatchCr → List SplitClient × List LocationV2
  | _i, _scLocal, [] => ([], [])
  | i, scLocal, m :: rest =>
    if ¬m.Splits.isEmpty then
      let (sc, locs) := generateSplits m.Splits upsNamer crUpstreams vn (scIndex + scLocal) cfgParams
      let (scs, ls) := matchLocationsAux upsNamer crUpstreams vn cfgParams index scIndex
        (i + 1) (scLocal + 1) rest
      (sc :: scs, locs ++ ls)
    else
      let path := "@matches_" ++ toString index ++ "_match_" ++ toString i
      let action := m.Action.getD ActionCr.zero
      let upstreamName := getNameForUpstream upsNamer action.Pass
      let upstream := alookup crUpstreams upstreamName UpstreamCr.zero
      let loc := generateLocation path upstreamName upstream action cfgParams
      let (scs, ls) := matchLocationsAux upsNamer crUpstreams vn cfgParams index scIndex
        (i + 1) scLocal rest
      (scs, loc :: ls)

/-- `generateMatchesConfig`. -/
def generateMatchesConfig (route : RouteCr) (upsNamer : UpstreamNamer)
    (crUpstreams : List (String × UpstreamCr)) (vn : VariableNamer)
    (index scIndex : Nat) (cfgParams : ConfigParams) : RoutingCfg :=
  let condMaps := matchesCondMapsAux vn index 0 route.Matches
  let source := mainMapSource vn index route.Matches
  let params := mainMapParamsAux vn index scIndex 0 0 route.Matches
  let scLocalIndex := countMatchesWithSplits route.Matches
  let defaultResult :=
    if ¬route.Splits.isEmpty then getNameForSplitClientVariable vn (scIndex + scLocalIndex)
    else "@matches_" ++ toString index ++ "_default"
  let allParams := params ++ [⟨"default", defaultResult⟩]
  let mapVar := getNameForVariableForMatchesRouteMainMap vn index
  let mainMap : MapV2 := ⟨source, mapVar, allParams⟩
  let maps := condMaps ++ [mainMap]
  let matchScLocs :=
    matchLocationsAux upsNamer crUpstreams vn cfgParams index scIndex 0 0 route.Matches
  let defaultScLocs :=
    generateSplits route.Splits upsNamer crUpstreams vn (scIndex + scLocalIndex) cfgParams
  let defaultPath := "@matches_" ++ toString index ++ "_default"
  let defaultAction := route.Action.getD ActionCr.zero
  let defaultUpstreamName := getNameForUpstream upsNamer defaultAction.Pass
  let defaultUpstream := alookup crUpstreams defaultUpstreamName UpstreamCr.zero
  { Maps := maps
    SplitClients :=
      matchScLocs.1 ++ (if ¬route.Splits.isEmpty then [defaultScLocs.1] else [])
    Locations :=
      matchScLocs.2 ++
        (if ¬route.Splits.isEmpty then defaultScLocs.2
         else [generateLocation defaultPath defaultUpstreamName defaultUpstream defaultAction cfgParams])
    InternalRedirectLocation := ⟨route.Path, mapVar⟩ }

/-! ## Top-level assembler (`GenerateVirtualServerConfig`) -/

/-- The per-upstream work of the two upstream loops of
`GenerateVirtualServerConfig`: generated upstreams, `crUpstreams` insertions,
health checks, status matches, and warnings, in source order. -/
def upstreamRecordsLoop (ext : Ext) (isPlus isResolverConfigured : Bool)
    (cfgParams : ConfigParams) (owner : Owner) (ns : String) (upsNamer : UpstreamNamer)
    (vsx : VirtualServerEx) :
    List UpstreamCr →
    List UpstreamV2 × List (String × UpstreamCr) × List HealthCheckV2
      × List StatusMatchV2 × WarningList
  | [] => ([], [], [], [], [])
  | u :: rest =>
    let upstreamName := getNameForUpstream upsNamer u.Name
    let (endpoints, w₁) := generateEndpointsForUpstream ext isPlus isResolverConfigured owner ns u vsx
    let isExternalNameSvc := vsx.ExternalNameSvcs (generateExternalNameSvcKey ns u.Service)
    let (ups, w₂) := generateUpstream isPlus cfgParams owner upstreamName u isExternalNameSvc endpoints
    let statusMatchStr := match u.HealthCheck with
      | some h => h.StatusMatch
      | none => ""
    let (hcs, sms) := match generateHealthCheck u upstreamName cfgParams with
      | none => ([], [])
      | some hc =>
        ([hc], if statusMatchStr ≠ "" then [generateUpstreamStatusMatch upstreamName statusMatchStr] else [])
    let (restUps, restCr, restHcs, restSms, restW) :=
      upstreamRecordsLoop ext isPlus isResolverConfigured cfgParams owner ns upsNamer vsx rest
    (ups :: restUps, (upstreamName, u) :: restCr, hcs ++ restHcs, sms ++ restSms,
      w₁ ++ w₂ ++ restW)

/-- The VirtualServerRoute upstream loop, with `k` the index of the current
VirtualServerRoute (its identity as a warnings key). -/
def vsrUpstreamRecordsLoop (ext : Ext) (isPlus isResolverConfigured : Bool)
    (cfgParams : ConfigParams) (vsx : VirtualServerEx) :
    Nat → List VirtualServerRouteCr →
    List UpstreamV2 × List (String × UpstreamCr) × List HealthCheckV2
      × List StatusMatchV2 × WarningList
  | _k, [] => ([], [], [], [], [])
  | k, vsr :: rest =>
    let upsNamer := newUpstreamNamerForVirtualServerRoute vsx.VirtualServer vsr
    let (ups, cr, hcs, sms, w) :=
      upstreamRecordsLoop ext isPlus isResolverConfigured cfgParams (Owner.vsr k)
        vsr.Namespace upsNamer vsx vsr.Spec.Upstreams
    let (restUps, restCr, restHcs, restSms, restW) :=
      vsrUpstreamRecordsLoop ext isPlus isResolverConfigured cfgParams vsx (k + 1) rest
    (ups ++ restUps, cr ++ restCr, hcs ++ restHcs, sms ++ restSms, w ++ restW)

/-- The accumulator threaded through the route loops of
`GenerateVirtualServerConfig`. -/
structure RoutingAcc where
  Locations : List LocationV2
  InternalRedirectLocations : List InternalRedirectLocation
  SplitClients : List SplitClient
  Maps : List MapV2
  MatchesRoutes : Nat

/-- The classification of one route into matches / splits / plain action, as
performed identically by the VS route loop and the VSR subroute loop. -/
def routeCfgStep (upsNamer : UpstreamNamer) (crUpstreams : List (String × UpstreamCr))
    (vn : VariableNamer) (cfgParams : ConfigParams) (acc : RoutingAcc) (r : RouteCr) :
    RoutingAcc :=
  if ¬r.Matches.isEmpty then
    let cfg := generateMatchesConfig r upsNamer crUpstreams vn acc.MatchesRoutes
      acc.SplitClients.length cfgParams
    { Locations := acc.Locations ++ cfg.Locations
      InternalRedirectLocations := acc.InternalRedirectLocations ++ [cfg.InternalRedirectLocation]
      SplitClients := acc.SplitClients ++ cfg.SplitClients
      Maps := acc.Maps ++ cfg.Maps
      MatchesRoutes := acc.MatchesRoutes + 1 }
  else if ¬r.Splits.isEmpty then
    let cfg := generateDefaultSplitsConfig r upsNamer crUpstreams vn
      acc.SplitClients.length cfgParams
    { acc with
        Locations := acc.Locations ++ cfg.Locations
        InternalRedirectLocations := acc.InternalRedirectLocations ++ [cfg.InternalRedirectLocation]
        SplitClients := acc.SplitClients ++ cfg.SplitClients }
  else
    let action := r.Action.getD ActionCr.zero
    let upstreamName := getNameForUpstream upsNamer action.Pass
    let upstream := alookup crUpstreams upstreamName UpstreamCr.zero
    { acc with
        Locations := acc.Locations ++ [generateLocation r.Path upstreamName upstream action cfgParams] }

/-- The VirtualServer route loop (routes delegating to a VirtualServerRoute
are skipped). -/
def vsRoutesFold (upsNamer : UpstreamNamer) (crUpstreams : List (String × UpstreamCr))
    (vn : VariableNamer) (cfgParams : ConfigParams) (acc : RoutingAcc)
    (routes : List RouteCr) : RoutingAcc :=
  routes.foldl (fun acc r =>
    if r.Route ≠ "" then acc
    else routeCfgStep upsNamer crUpstreams vn cfgParams acc r) acc

/-- The VirtualServerRoute subroute loop. -/
def vsrSubroutesFold (vs : VirtualServerCr) (crUpstreams : List (String × UpstreamCr))
    (vn : VariableNamer) (cfgParams : ConfigParams) (acc : RoutingAcc)
    (vsrs : List VirtualServerRouteCr) : RoutingAcc :=
  vsrs.foldl (fun acc vsr =>
    let upsNamer := newUpstreamNamerForVirtualServerRoute vs vsr
    vsr.Spec.Subroutes.foldl (routeCfgStep upsNamer crUpstreams vn cfgParams) acc) acc

/-- `virtualServerConfigurator.GenerateVirtualServerConfig`: the full lowering
of one snapshot, returning the configuration and the warnings. -/
def generateVirtualServerConfig (ext : Ext) (cfgParams : ConfigParams)
    (isPlus isResolverConfigured : Bool) (vsx : VirtualServerEx)
    (tlsPemFileName : String) : VirtualServerConfig × WarningList :=
  let ssl := generateSSLConfig vsx.VirtualServer.Spec.TLS tlsPemFileName cfgParams
  let tlsRedirectConfig := generateTLSRedirectConfig vsx.VirtualServer.Spec.TLS
  let virtualServerUpstreamNamer := newUpstreamNamerForVirtualServer vsx.VirtualServer
  let (ups₁, cr₁, hcs₁, sms₁, w₁) :=
    upstreamRecordsLoop ext isPlus isResolverConfigured cfgParams Owner.vs
      vsx.VirtualServer.Namespace virtualServerUpstreamNamer vsx
      vsx.VirtualServer.Spec.Upstreams
  let (ups₂, cr₂, hcs₂, sms₂, w₂) :=
    vsrUpstreamRecordsLoop ext isPlus isResolverConfigured cfgParams vsx 0
      vsx.VirtualServerRoutes
  let upstreams := ups₁ ++ ups₂
  let crUpstreams := (cr₁ ++ cr₂).foldl (fun acc p => upsert acc p.1 p.2) []
  let healthChecks := hcs₁ ++ hcs₂
  let statusMatches := sms₁ ++ sms₂
  let vn := newVariableNamer vsx.VirtualServer
  let acc₀ : RoutingAcc := ⟨[], [], [], [], 0⟩
  let acc₁ := vsRoutesFold virtualServerUpstreamNamer crUpstreams vn cfgParams acc₀
    vsx.VirtualServer.Spec.Routes
  let acc₂ := vsrSubroutesFold vsx.VirtualServer crUpstreams vn cfgParams acc₁
    vsx.VirtualServerRoutes
  ({ Upstreams := upstreams
     SplitClients := acc₂.SplitClients
     Maps := acc₂.Maps
     StatusMatches := statusMatches
     Server :=
       { ServerName := vsx.VirtualServer.Spec.Host
         StatusZone := vsx.VirtualServer.Spec.Host
         ProxyProtocol := cfgParams.ProxyProtocol
         SSL := ssl
         ServerTokens := cfgParams.ServerTokens
         SetRealIPFrom := cfgParams.SetRealIPFrom
         RealIPHeader := cfgParams.RealIPHeader
         RealIPRecursive := cfgParams.RealIPRecursive
         Snippets := cfgParams.ServerSnippets
         InternalRedirectLocations := acc₂.InternalRedirectLocations
         Locations := acc₂.Locations
         HealthChecks := healthChecks
         TLSRedirect := tlsRedirectConfig } }, w₁ ++ w₂)

/-! ## Validator: error model (`k8s.io/apimachinery` `field` package) -/

/-- A structured field path, as built by `field.Path` `Child`/`Index`. -/
inductive FPath where
  | root (name : String) : FPath
  | child (p : FPath) (name : String) : FPath
  | idx (p : FPath) (i : Nat) : FPath
deriving DecidableEq, Repr

/-- The kinds of `field.Error` the validator produces. -/
inductive ErrType where
  | required
  | invalid
  | duplicate
  | notFound
  | forbidden
deriving DecidableEq, Repr

/-- A `field.Error`; `badValue` carries the string rendering of the offending
value. -/
structure FieldError where
  typ : ErrType
  path : FPath
  badValue : String
  detail : String
deriving DecidableEq, Repr

/-- `field.Required`. -/
def mkRequired (p : FPath) (detail : String) : FieldError := ⟨.required, p, "", detail⟩

/-- `field.Invalid`. -/
def mkInvalid (p : FPath) (badValue detail : String) : FieldError := ⟨.invalid, p, badValue, detail⟩

/-- `field.Duplicate`. -/
def mkDuplicate (p : FPath) (badValue : String) : FieldError := ⟨.duplicate, p, badValue, ""⟩

/-- `field.NotFound`. -/
def mkNotFound (p : FPath) (badValue : String) : FieldError := ⟨.notFound, p, badValue, ""⟩

/-- `field.Forbidden`. -/
def mkForbidden (p : FPath) (detail : String) : FieldError := ⟨.forbidden, p, "", detail⟩

/-! ## Validator: grammar checkers for regexes declared in `validation.go` -/

/-- The opening curly brace character. -/
def lbrace : Char := Char.ofNat 123

/-- The closing curly brace character. -/
def rbrace : Char := Char.ofNat 125

/-- The character class of Go regexp `\s`: `[\t\n\f\r ]`. -/
def reSpace (c : Char) : Bool :=
  c = '\t' ∨ c = '\n' ∨ c = Char.ofNat 12 ∨ c = '\r' ∨ c = ' '

/-- Full-string match of `escapedStringsFmt`, the anchored regex
`([^"\\]|\\.)*` (where `.` excludes the newline). -/
def escapedStringsOk : List Char → Bool
  | [] => true
  | '\\' :: c :: rest => c ≠ '\n' && escapedStringsOk rest
  | ['\\'] => false
  | c :: rest => c ≠ '"' && escapedStringsOk rest

/-- Full-string match of `actionReturnTypeFmt`, the anchored regex over
characters other than `;`, braces, `"` and `\`, with `\\.` escapes. -/
def actionReturnTypeOk : List Char → Bool
  | [] => true
  | '\\' :: c :: rest => c ≠ '\n' && actionReturnTypeOk rest
  | ['\\'] => false
  | c :: rest =>
    ¬(c = ';' ∨ c = lbrace ∨ c = rbrace ∨ c = '"') && actionReturnTypeOk rest

/-- `[_A-Za-z0-9]` — the character class of the cookie/argument name regexes. -/
def wordChar (c : Char) : Bool :=
  c = '_' ∨ ('A' ≤ c ∧ c ≤ 'Z') ∨ ('a' ≤ c ∧ c ≤ 'z') ∨ ('0' ≤ c ∧ c ≤ '9')

/-- Full-string match of `cookieNameFmt` / `argumentNameFmt`: `[_A-Za-z0-9]+`. -/
def wordNameOk (s : String) : Bool :=
  s.length > 0 && s.data.all wordChar

/-- Full-string match of `pathFmt`: `/[^\s{};]*`. -/
def pathOk (s : String) : Bool :=
  match s.data with
  | '/' :: rest => rest.all (fun c => ¬(reSpace c ∨ c = lbrace ∨ c = rbrace ∨ c = ';'))
  | _ => false

/-- `validation.RegexError` (external k8s.io message formatting). -/
def regexError (msg fmtStr : String) (examples : List String) : String :=
  if examples.length = 0 then
    msg ++ " (regex used for validation is \x27" ++ fmtStr ++ "\x27)"
  else
    msg ++ " (e.g. "
      ++ String.intercalate " or " (examples.map (fun e => "\x27" ++ e ++ "\x27"))
      ++ ", regex used for validation is \x27" ++ fmtStr ++ "\x27)"

/-- `validation.InclusiveRangeError` (external k8s.io message). -/
def inclusiveRangeError (lo hi : Int) : String :=
  "must be between " ++ toString lo ++ " and " ++ toString hi ++ ", inclusive"

/-- `validation.IsInRange` (external k8s.io helper with its documented
behaviour: no messages exactly when `lo ≤ value ≤ hi`). -/
def isInRange (value lo hi : Int) : List String :=
  if lo ≤ value ∧ value ≤ hi then [] else [inclusiveRangeError lo hi]

/-- `escapedStringsFmt`. -/
def escapedStringsFmt : String := "([^\"\\\\]|\\\\.)*"

/-- `escapedStringsErrMsg`. -/
def escapedStringsErrMsg : String :=
  "must have all \x27\"\x27 (double quotes) escaped and must not end with an unescaped \x27\\\x27 (backslash)"

/-- `pathFmt`. -/
def pathFmt : String := "/[^\\s\x7b\x7d;]*"

/-- `pathErrMsg`. -/
def pathErrMsg : String :=
  "must start with / and must not include any whitespace character, `\x7b`, `\x7d` or `;`"

/-- `cookieNameErrMsg`. -/
def cookieNameErrMsg : String :=
  "a valid cookie name must consist of alphanumeric characters or \x27_\x27"

/-- `argumentNameErrMsg`. -/
def argumentNameErrMsg : String :=
  "a valid argument name must consist of alphanumeric characters or \x27_\x27"

/-- `isCookieName`. -/
def isCookieName (value : String) : List String :=
  if ¬wordNameOk value then [regexError cookieNameErrMsg "[_A-Za-z0-9]+" ["my_cookie_123"]]
  else []

/-- `isArgumentName`. -/
def isArgumentName (value : String) : List String :=
  if ¬wordNameOk value then [regexError argumentNameErrMsg "[_A-Za-z0-9]+" ["argument_123"]]
  else []

/-! ## Validator: variables in strings (`validateStringWithVariables`) -/

/-- `captureVariables` as a one-pass scanner: all names captured by the regex
matching a dollar, an open brace, non-brace characters and a closing brace,
left to right and non-overlapping. The first argument is `none` outside a
capture and `some acc` inside one, with `acc` the reversed captured prefix;
a capture reaching the end of the string without a closing brace matches
nothing, and no later capture can match either since no closing brace
remains. -/
def captureVarsAux : Option (List Char) → List Char → List String
  | _, [] => []
  | none, '$' :: c :: rest =>
    if c = lbrace then captureVarsAux (some []) rest
    else captureVarsAux none (c :: rest)
  | none, _ :: rest => captureVarsAux none rest
  | some acc, c :: rest =>
    if c = rbrace then String.mk acc.reverse :: captureVarsAux none rest
    else captureVarsAux (some (c :: acc)) rest

/-- `captureVariables` on a string. -/
def captureVariables (s : String) : List String :=
  captureVarsAux none s.data

/-- `strings.HasSuffix(str, "$")`, decided on the character list. -/
def hasSuffixDollar (s : List Char) : Bool :=
  s.getLast? = some '$'

/-- The error message of the enclosed-in-braces checks. -/
def bracesMsg : String :=
  "variables must be enclosed in curly braces, for example ${host}"

/-- The `for i, c := range str` loop of `validateStringWithVariables`:
`some e` is the early return with error `e`, `none` a completed loop. The
`str[i+1]` byte access is taken as the head of the remaining characters, with
a junk value on the (unreachable) empty remainder. -/
def dollarScan (fieldPath : FPath) (str : String) : List Char → Option FieldError
  | [] => none
  | c :: rest =>
    if c = '$' then
      if rest.headD (Char.ofNat 0) ≠ lbrace then some (mkInvalid fieldPath str bracesMsg)
      else if ¬rbrace ∈ rest then some (mkInvalid fieldPath str bracesMsg)
      else dollarScan fieldPath str rest
    else dollarScan fieldPath str rest

/-- The same loop with the Go runtime made explicit: `none` is an
index-out-of-range panic on the `str[i+1]` access, which happens exactly when
a dollar is the last character reached by the loop. -/
def dollarScanRt (fieldPath : FPath) (str : String) : List Char → Option (Option FieldError)
  | [] => some none
  | c :: rest =>
    if c = '$' then
      if rest.isEmpty then none
      else if rest.headD (Char.ofNat 0) ≠ lbrace then some (some (mkInvalid fieldPath str bracesMsg))
      else if ¬rbrace ∈ rest then some (some (mkInvalid fieldPath str bracesMsg))
      else dollarScanRt fieldPath str rest
    else dollarScanRt fieldPath str rest

/-- `mapToPrettyString`. -/
def mapToPrettyString (l : List String) : String :=
  String.intercalate ", " l

/-- `validateVariable`. -/
def validateVariable (nVar : String) (validVars : List String) (fieldPath : FPath) :
    List FieldError :=
  if ¬validVars.contains nVar then
    [mkInvalid fieldPath nVar ("\x27" ++ nVar ++ "\x27 contains an invalid NGINX variable. Accepted variables are: " ++ mapToPrettyString validVars)]
  else []

/-- `isValidSpecialVariableHeader`. -/
def isValidSpecialVariableHeader (ext : Ext) (header : String) : List String :=
  let errMsgs := ext.isHTTPHeaderName (header.replace "_" "-")
  if errMsgs.length ≥ 1 ∨ header.contains '-' then
    ["a valid HTTP header must consist of alphanumeric characters or \x27_\x27"]
  else []

/-- `validateSpecialVariable`. -/
def validateSpecialVariable (ext : Ext) (nVar : String) (fieldPath : FPath) :
    List FieldError :=
  let value := splitN2Underscore nVar
  let hd := value.headD ""
  let tl := value.getD 1 ""
  if hd = "arg" then (isArgumentName tl).map (fun msg => mkInvalid fieldPath nVar msg)
  else if hd = "http" then (isValidSpecialVariableHeader ext tl).map (fun msg => mkInvalid fieldPath nVar msg)
  else if hd = "cookie" then (isCookieName tl).map (fun msg => mkInvalid fieldPath nVar msg)
  else []

/-- The loop over captured variables shared by both renderings of
`validateStringWithVariables`. -/
def capturedVarsErrors (ext : Ext) (str : String) (fieldPath : FPath)
    (validVars specialVars : List String) : List FieldError :=
  (captureVariables str).foldl (fun allErrs nVar =>
    let special := specialVars.any (fun sv => goHasPrefix nVar sv)
    allErrs ++
      (if special then validateSpecialVariable ext nVar fieldPath
       else validateVariable nVar validVars fieldPath)) []

/-- `validateStringWithVariables`. -/
def validateStringWithVariables (ext : Ext) (str : String) (fieldPath : FPath)
    (validVars specialVars : List String) : List FieldError :=
  if hasSuffixDollar str.data then [mkInvalid fieldPath str "must not end with $"]
  else
    match dollarScan fieldPath str str.data with
    | some e => [e]
    | none => capturedVarsErrors ext str fieldPath validVars specialVars

/-- `validateStringWithVariables` with the Go runtime made explicit: `none`
models an index-out-of-range panic. -/
def validateStringWithVariablesRt (ext : Ext) (str : String) (fieldPath : FPath)
    (validVars specialVars : List String) : Option (List FieldError) :=
  if hasSuffixDollar str.data then some [mkInvalid fieldPath str "must not end with $"]
  else
    match dollarScanRt fieldPath str str.data with
    | none => none
    | some (some e) => some [e]
    | some none => some (capturedVarsErrors ext str fieldPath validVars specialVars)

/-! ## Validator: actions, splits, routes, subroutes -/

/-- `validRedirectVariableNames` (the keys of the Go set, in declaration
order). -/
def validRedirectVariableNames : List String :=
  ["scheme", "http_x_forwarded_proto", "request_uri", "host"]

/-- `returnBodyVariables` (the keys of the Go set, in declaration order). -/
def returnBodyVariables : List String :=
  ["request_uri", "request_method", "request_body", "scheme", "args", "host",
   "request_time", "request_length", "nginx_version", "pid", "connection",
   "remote_addr", "remote_port", "time_iso8601", "time_local", "server_addr",
   "server_port", "server_name", "server_protocol", "connections_active",
   "connections_reading", "connections_writing", "connections_waiting"]

/-- `returnBodySpecialVariables`. -/
def returnBodySpecialVariables : List String := ["arg_", "http_", "cookie_"]

/-- `validVariableNames` (the keys of the Go set, in declaration order). -/
def validVariableNames : List String :=
  ["$args", "$http2", "$https", "$remote_addr", "$remote_port", "$query_string",
   "$request", "$request_body", "$request_uri", "$request_method", "$scheme"]

/-- `validRedirectStatusCodes` (the keys of the Go set). -/
def validRedirectStatusCodes : List Int := [301, 302, 307, 308]

/-- `validateRedirectStatusCode`. -/
def validateRedirectStatusCode (code : Int) (fieldPath : FPath) : List FieldError :=
  if ¬validRedirectStatusCodes.contains code then
    [mkInvalid fieldPath (toString code) "status code out of accepted range. accepted values are \x27301\x27, \x27302\x27, \x27307\x27, \x27308\x27"]
  else []

/-- `validateRedirectURL`. -/
def validateRedirectURL (ext : Ext) (redirectURL : String) (fieldPath : FPath) :
    List FieldError :=
  if redirectURL = "" then [mkRequired fieldPath "must specify a url"]
  else if ¬escapedStringsOk redirectURL.data then
    [mkInvalid fieldPath redirectURL (regexError escapedStringsErrMsg escapedStringsFmt ["http://www.nginx.com"])]
  else validateStringWithVariables ext redirectURL fieldPath validRedirectVariableNames []

/-- `validateActionRedirect`. -/
def validateActionRedirect (ext : Ext) (redirect : ActionRedirect) (fieldPath : FPath) :
    List FieldError :=
  validateRedirectURL ext redirect.URL (FPath.child fieldPath "url")
    ++ (if redirect.Code ≠ 0 then validateRedirectStatusCode redirect.Code (FPath.child fieldPath "code") else [])

/-- `validateActionReturnCode`. -/
def validateActionReturnCode (code : Int) (fieldPath : FPath) : List FieldError :=
  if (200 ≤ code ∧ code ≤ 299) ∨ (400 ≤ code ∧ code ≤ 599) then []
  else [mkInvalid fieldPath (toString code) "must be a valid status code either 2XX, 4XX or 5XX, for example, 200 or 402."]

/-- `validateActionReturnBody`. -/
def validateActionReturnBody (ext : Ext) (body : String) (fieldPath : FPath) :
    List FieldError :=
  (if ¬escapedStringsOk body.data then
    [mkInvalid fieldPath body (regexError escapedStringsErrMsg escapedStringsFmt ["Hello World! \\n"])]
   else [])
    ++ validateStringWithVariables ext body fieldPath returnBodyVariables returnBodySpecialVariables

/-- `validateActionReturnType`. -/
def validateActionReturnType (returnType : String) (fieldPath : FPath) : List FieldError :=
  if ¬actionReturnTypeOk returnType.data then
    [mkInvalid fieldPath returnType (regexError "must have all \x27\"\x27 (double quotes), \x27\x7b\x27, \x27\x7d\x27 or \x27;\x27 escaped and must not end with an unescaped \x27\\\x27 (backslash)" "([^;\\\x7b\\\x7d\"\\\\]|\\\\.)*" ["type/subtype", "application/json"])]
  else []

/-- `validateActionReturn`. -/
def validateActionReturn (ext : Ext) (r : ActionReturn) (fieldPath : FPath) :
    List FieldError :=
  if r.Body = "" then [mkRequired (FPath.child fieldPath "body") ""]
  else
    validateActionReturnBody ext r.Body (FPath.child fieldPath "body")
      ++ (if r.Typ ≠ "" then validateActionReturnType r.Typ (FPath.child fieldPath "type") else [])
      ++ (if r.Code ≠ 0 then validateActionReturnCode r.Code (FPath.child fieldPath "code") else [])

/-- `validateDNS1035Label`. -/
def validateDNS1035Label (ext : Ext) (name : String) (fieldPath : FPath) :
    List FieldError :=
  if name = "" then [mkRequired fieldPath ""]
  else (ext.isDNS1035Label name).map (fun msg => mkInvalid fieldPath name msg)

/-- `validateUpstreamName`. -/
def validateUpstreamName (ext : Ext) (name : String) (fieldPath : FPath) :
    List FieldError :=
  validateDNS1035Label ext name fieldPath

/-- `validateReferencedUpstream`. -/
def validateReferencedUpstream (ext : Ext) (name : String) (fieldPath : FPath)
    (upstreamNames : List String) : List FieldError :=
  let upstreamErrs := validateUpstreamName ext name fieldPath
  if upstreamErrs.length > 0 then upstreamErrs
  else if ¬upstreamNames.contains name then [mkNotFound fieldPath name]
  else []

/-- `countActions`. -/
def countActions (action : ActionCr) : Nat :=
  (if action.Pass ≠ "" then 1 else 0)
    + (if action.Redirect.isSome then 1 else 0)
    + (if action.Return.isSome then 1 else 0)

/-- `validateAction`. -/
def validateAction (ext : Ext) (action : ActionCr) (fieldPath : FPath)
    (upstreamNames : List String) : List FieldError :=
  if countActions action ≠ 1 then
    [mkRequired fieldPath "action must specify exactly one of `pass`, `redirect` or `return`"]
  else
    (if action.Pass ≠ "" then
      validateReferencedUpstream ext action.Pass (FPath.child fieldPath "pass") upstreamNames
     else [])
      ++ (match action.Redirect with
          | some rd => validateActionRedirect ext rd (FPath.child fieldPath "redirect")
          | none => [])
      ++ (match action.Return with
          | some rt => validateActionReturn ext rt (FPath.child fieldPath "return")
          | none => [])

/-- `validateSplits`. -/
def validateSplits (ext : Ext) (splits : List SplitCr) (fieldPath : FPath)
    (upstreamNames : List String) : List FieldError :=
  if splits.length < 2 then [mkInvalid fieldPath "" "must include at least 2 splits"]
  else
    let errs := (splits.mapIdx (fun i s =>
      let idxPath := FPath.idx fieldPath i
      (isInRange s.Weight 1 99).map (fun msg => mkInvalid (FPath.child idxPath "weight") (toString s.Weight) msg)
        ++ (match s.Action with
            | none => [mkRequired (FPath.child idxPath "action") ""]
            | some a => validateAction ext a (FPath.child idxPath "action") upstreamNames))).flatten
    let totalWeight := (splits.map (fun s => s.Weight)).sum
    errs ++ (if totalWeight ≠ 100 then
      [mkInvalid fieldPath "" "the sum of the weights of all splits must be equal to 100"]
     else [])

/-- `validatePath`. -/
def validatePath (path : String) (fieldPath : FPath) : List FieldError :=
  if path = "" then [mkRequired fieldPath ""]
  else if ¬pathOk path then
    [mkInvalid fieldPath path (regexError pathErrMsg pathFmt ["/", "/path", "/path/subpath-123"])]
  else []

/-- `validateRegexPath`. -/
def validateRegexPath (ext : Ext) (path : String) (fieldPath : FPath) : List FieldError :=
  if ¬ext.regexCompileOk path then
    [mkInvalid fieldPath path "must be a valid regular expression"]
  else if ¬escapedStringsOk path.data then
    [mkInvalid fieldPath path (regexError escapedStringsErrMsg escapedStringsFmt ["*.jpg"])]
  else []

/-- `validateRoutePath`. -/
def validateRoutePath (ext : Ext) (path : String) (fieldPath : FPath) : List FieldError :=
  if path = "" then [mkRequired fieldPath ""]
  else if goHasPrefix path "~" then validateRegexPath ext path fieldPath
  else if goHasPrefix path "/" then validatePath path fieldPath
  else if goHasPrefix path "=" then validatePath (trimPfx path "=") fieldPath
  else [mkInvalid fieldPath path "must start with /, ~ or ="]

/-- `validateVariableName`. -/
def validateVariableName (name : String) (fieldPath : FPath) : List FieldError :=
  if ¬goHasPrefix name "$" then [mkInvalid fieldPath name "must start with `$`"]
  else if ¬validVariableNames.contains name then
    [mkInvalid fieldPath name "is not allowed or is not an NGINX variable"]
  else []

/-- `isValidMatchValue`. -/
def isValidMatchValue (value : String) : List String :=
  if ¬escapedStringsOk value.data then
    [regexError escapedStringsErrMsg escapedStringsFmt ["value-123"]]
  else []

/-- `validateCondition`. -/
def validateCondition (ext : Ext) (condition : ConditionCr) (fieldPath : FPath) :
    List FieldError :=
  let fieldCount :=
    (if condition.Header ≠ "" then 1 else 0) + (if condition.Cookie ≠ "" then 1 else 0)
      + (if condition.Argument ≠ "" then 1 else 0) + (if condition.Variable ≠ "" then 1 else 0)
  (if condition.Header ≠ "" then
    (ext.isHTTPHeaderName condition.Header).map (fun msg => mkInvalid (FPath.child fieldPath "header") condition.Header msg)
   else [])
    ++ (if condition.Cookie ≠ "" then
      (isCookieName condition.Cookie).map (fun msg => mkInvalid (FPath.child fieldPath "cookie") condition.Cookie msg)
     else [])
    ++ (if condition.Argument ≠ "" then
      (isArgumentName condition.Argument).map (fun msg => mkInvalid (FPath.child fieldPath "argument") condition.Argument msg)
     else [])
    ++ (if condition.Variable ≠ "" then
      validateVariableName condition.Variable (FPath.child fieldPath "variable")
     else [])
    ++ (if fieldCount ≠ 1 then
      [mkInvalid fieldPath "" "must specify exactly one of: `header`, `cookie`, `argument` or `variable`"]
     else [])
    ++ (isValidMatchValue condition.Value).map (fun msg => mkInvalid (FPath.child fieldPath "value") condition.Value msg)

/-- `validateMatch`. -/
def validateMatch (ext : Ext) (m : MatchCr) (fieldPath : FPath)
    (upstreamNames : List String) : List FieldError :=
  let fieldCount :=
    (if m.Action.isSome then 1 else 0) + (if ¬m.Splits.isEmpty then 1 else 0)
  (if m.Conditions.isEmpty then
    [mkRequired (FPath.child fieldPath "conditions") "must specify at least one condition"]
   else
    (m.Conditions.mapIdx (fun i c =>
      validateCondition ext c (FPath.idx (FPath.child fieldPath "conditions") i))).flatten)
    ++ (match m.Action with
        | some a => validateAction ext a (FPath.child fieldPath "action") upstreamNames
        | none => [])
    ++ (if ¬m.Splits.isEmpty then
      validateSplits ext m.Splits (FPath.child fieldPath "splits") upstreamNames
     else [])
    ++ (if fieldCount ≠ 1 then
      [mkInvalid fieldPath "" "must specify exactly one of `action` or `splits`"]
     else [])

/-- `validateRouteField`. -/
def validateRouteField (ext : Ext) (value : String) (fieldPath : FPath) :
    List FieldError :=
  (ext.isQualifiedName value).map (fun msg => mkInvalid fieldPath value msg)

/-- `validateRoute`. -/
def validateRoute (ext : Ext) (route : RouteCr) (fieldPath : FPath)
    (upstreamNames : List String) (isRouteFieldForbidden : Bool) : List FieldError :=
  let fieldCount :=
    (if route.Action.isSome then 1 else 0) + (if ¬route.Splits.isEmpty then 1 else 0)
      + (if route.Route ≠ "" ∧ ¬isRouteFieldForbidden then 1 else 0)
  validateRoutePath ext route.Path (FPath.child fieldPath "path")
    ++ (match route.Action with
        | some a => validateAction ext a (FPath.child fieldPath "action") upstreamNames
        | none => [])
    ++ (if ¬route.Splits.isEmpty then
      validateSplits ext route.Splits (FPath.child fieldPath "splits") upstreamNames
     else [])
    ++ (if ¬route.Matches.isEmpty then
      (route.Matches.mapIdx (fun i m =>
        validateMatch ext m (FPath.idx (FPath.child fieldPath "matches") i) upstreamNames)).flatten
     else [])
    ++ (if route.Route ≠ "" then
      (if isRouteFieldForbidden then [mkForbidden (FPath.child fieldPath "route") "is not allowed"]
       else validateRouteField ext route.Route (FPath.child fieldPath "route"))
     else [])
    ++ (if fieldCount ≠ 1 then
      [mkInvalid fieldPath ""
        (if isRouteFieldForbidden ∨ ¬route.Matches.isEmpty then
          "must specify exactly one of `action` or `splits`"
         else "must specify exactly one of `action`, `splits` or `route`")]
     else [])

/-- `isRegexOrExactMatch`. -/
def isRegexOrExactMatch (path : String) : Bool :=
  goHasPrefix path "~" ∨ goHasPrefix path "="

/-- The loop of `validateVirtualServerRouteSubroutes` over subroutes for a
non-regex, non-exact parent path, threading the duplicate-path set. -/
def subroutesLoop (ext : Ext) (fieldPath : FPath) (upstreamNames : List String)
    (vsPath : String) : Nat → List String → List RouteCr → List FieldError
  | _i, _allPaths, [] => []
  | i, allPaths, r :: rest =>
    let idxPath := FPath.idx fieldPath i
    let routeErrs := validateRoute ext r idxPath upstreamNames true
    let routeErrs := routeErrs ++
      (if vsPath ≠ "" ∧ ¬goHasPrefix r.Path vsPath ∧ ¬isRegexOrExactMatch r.Path then
        [mkInvalid idxPath r.Path ("must start with \x27" ++ vsPath ++ "\x27")]
       else [])
    if routeErrs.length > 0 then
      routeErrs ++ subroutesLoop ext fieldPath upstreamNames vsPath (i + 1) allPaths rest
    else if allPaths.contains r.Path then
      [mkDuplicate (FPath.child idxPath "path") r.Path]
        ++ subroutesLoop ext fieldPath upstreamNames vsPath (i + 1) allPaths rest
    else
      subroutesLoop ext fieldPath upstreamNames vsPath (i + 1) (r.Path :: allPaths) rest

/-- `validateVirtualServerRouteSubroutes`. -/
def validateVirtualServerRouteSubroutes (ext : Ext) (routes : List RouteCr)
    (fieldPath : FPath) (upstreamNames : List String) (vsPath : String) :
    List FieldError :=
  if isRegexOrExactMatch vsPath then
    match routes with
    | [r₀] =>
      if r₀.Path ≠ vsPath then
        [mkInvalid (FPath.child (FPath.idx fieldPath 0) "path") r₀.Path
          "must have the same path as the referenced VirtualServer route path"]
      else validateRoute ext r₀ (FPath.idx fieldPath 0) upstreamNames true
    | _ =>
      [mkInvalid fieldPath "subroutes"
        "must have only one subroute if regex match or exact match are being used"]
  else
    subroutesLoop ext fieldPath upstreamNames vsPath 0 [] routes

/-- `rejectPlusResourcesInOSS`. -/
def rejectPlusResourcesInOSS (upstream : UpstreamCr) (idxPath : FPath) (isPlus : Bool) :
    List FieldError :=
  if isPlus then []
  else
    (if upstream.HealthCheck.isSome then
      [mkForbidden (FPath.child idxPath "healthCheck") "active health checks are only supported in NGINX Plus"]
     else [])
      ++ (if upstream.SlowStart ≠ "" then
        [mkForbidden (FPath.child idxPath "slow-start") "slow start is only supported in NGINX Plus"]
       else [])
      ++ (if upstream.SessionCookie.isSome then
        [mkForbidden (FPath.child idxPath "sessionCookie") "sticky cookies are only supported in NGINX Plus"]
       else [])
      ++ (if upstream.Queue.isSome then
        [mkForbidden (FPath.child idxPath "queue") "queue is only supported in NGINX Plus"]
       else [])

/-! ## Concrete fixtures used by the witness theorems -/

/-- A concrete interpretation of the external library functions. -/
def extW : Ext where
  labelsSetString := fun _ => ""
  regexCompileOk := fun _ => true
  isDNS1035Label := fun _ => []
  isDNS1123Subdomain := fun _ => []
  isHTTPHeaderName := fun _ => []
  isQualifiedName := fun _ => []

/-- A concrete fleet-default parameter set. -/
def cfgW : ConfigParams where
  LBMethod := "random"
  Keepalive := 0
  MaxFails := 1
  FailTimeout := "10s"
  MaxConns := 0
  UpstreamZoneSize := "256k"
  ProxyConnectTimeout := "60s"
  ProxyReadTimeout := "60s"
  ProxySendTimeout := "60s"
  ClientMaxBodySize := "1m"
  ProxyMaxTempFileSize := "1024m"
  ProxyBuffering := true
  ProxyBuffers := ""
  ProxyBufferSize := ""
  LocationSnippets := []
  ServerSnippets := []
  ProxyProtocol := false
  ServerTokens := "on"
  SetRealIPFrom := []
  RealIPHeader := ""
  RealIPRecursive := false
  HTTP2 := false

/-- A concrete upstream targeting service `tea-svc`. -/
def upW : UpstreamCr :=
  { UpstreamCr.zero with Name := "tea", Service := "tea-svc", Port := 80 }

/-- A concrete upstream carrying a commercial-only health-check block. -/
def upPlusW : UpstreamCr :=
  { upW with
      HealthCheck := some ⟨true, "", "", "", 0, 0, 0, none, "", "", "", [], ""⟩ }

/-- A concrete VirtualServer `default/cafe`. -/
def vsW : VirtualServerCr := ⟨"default", "cafe", ⟨"cafe.example.com", none, [upW], []⟩⟩

/-- A concrete snapshot whose `tea-svc` service is ExternalName and has no
endpoint entries. -/
def vsxW : VirtualServerEx where
  VirtualServer := vsW
  Endpoints := fun _ => []
  VirtualServerRoutes := []
  ExternalNameSvcs := fun k => k = "default/tea-svc"

/-- A concrete snapshot whose `tea-svc` service is ExternalName and resolves
to one DNS-name endpoint. -/
def vsxEpW : VirtualServerEx where
  VirtualServer := vsW
  Endpoints := fun k => if k = "default/tea-svc:80" then ["example.com:80"] else []
  VirtualServerRoutes := []
  ExternalNameSvcs := fun k => k = "default/tea-svc"

/-- A concrete matches route: one header condition, nested default action. -/
def matchRouteW : RouteCr where
  Path := "/tea"
  Route := ""
  Action := some ⟨"tea-v1", none, none⟩
  Splits := []
  Matches := [⟨[⟨"x-version", "", "", "", "v2"⟩], some ⟨"tea-v2", none, none⟩, []⟩]

/-- A concrete variable namer for `default/cafe`. -/
def vnW : VariableNamer := ⟨"default_cafe"⟩

/-- A concrete valid subroute whose path is the exact match `=/tea`. -/
def vsrExactRouteW : RouteCr := ⟨"=/tea", "", some ⟨"tea", none, none⟩, [], []⟩

/-- A concrete subroute whose path `/coffee` does not extend the parent
prefix `/tea`. -/
def vsrBadRouteW : RouteCr := ⟨"/coffee", "", some ⟨"tea", none, none⟩, [], []⟩

/-- A concrete upstream namer for `default/cafe`. -/
def unW : UpstreamNamer := ⟨"vs_default_cafe"⟩

/-! ## Claims about the generator: C2, C3, C6, C8, C9 -/

/-- Claim C2 counterexample: in the OSS tier, with the upstream's service in
the ExternalName set, no resolver configured, and no endpoint entries, the
function returns the single 502-sentinel server and appends no warning — not
an empty endpoint list with one warning as the claim states for "both tiers
and regardless of endpoint entries". -/
theorem claim2_counterexample :
    vsxW.ExternalNameSvcs (generateExternalNameSvcKey "default" upW.Service) = true
    ∧ (generateEndpointsForUpstream extW false false Owner.vs "default" upW vsxW).1
        = [nginx502Server]
    ∧ (generateEndpointsForUpstream extW false false Owner.vs "default" upW vsxW).2 = [] := by
  refine ⟨by decide, rfl, rfl⟩

/-- Claim C2, amended: for an upstream whose service is in the ExternalName
set and with the resolver flag false, `generateEndpointsForUpstream` returns
an empty endpoint list and exactly one warning keyed to the owning resource —
in the commercial tier unconditionally, and in the OSS tier whenever the
endpoint table has a non-empty entry for the upstream's key (in OSS with no
endpoints the 502-sentinel early return fires first). -/
theorem claim2_amended_externalname_warning (ext : Ext) (isPlus isResolverConfigured : Bool)
    (owner : Owner) (ns : String) (u : UpstreamCr) (vsx : VirtualServerEx)
    (hext : vsx.ExternalNameSvcs (generateExternalNameSvcKey ns u.Service) = true)
    (hres : isResolverConfigured = false)
    (hne : isPlus = true ∨ vsx.Endpoints (generateEndpointsKey ext ns u.Service u.Subselector u.Port) ≠ []) :
    generateEndpointsForUpstream ext isPlus isResolverConfigured owner ns u vsx
      = ([], [(owner, externalNameWarningMsg u.Service u.Name)]) := by
  unfold generateEndpointsForUpstream
  have h₁ : ¬(¬isPlus = true ∧ (vsx.Endpoints (generateEndpointsKey ext ns u.Service u.Subselector u.Port)).length = 0) := by
    rcases hne with h | h
    · subst h; simp
    · intro hc
      exact h (List.length_eq_zero.mp hc.2)
  rw [if_neg h₁]
  rw [hext, hres]
  simp

/-- Claim C2 witness: the amended theorem applied in the commercial tier at
the concrete ExternalName snapshot. -/
theorem claim2_witness :
    generateEndpointsForUpstream extW true false Owner.vs "default" upW vsxW
      = ([], [(Owner.vs, externalNameWarningMsg upW.Service upW.Name)]) :=
  claim2_amended_externalname_warning extW true false Owner.vs "default" upW vsxW
    (by decide) rfl (Or.inl rfl)

/-- Claim C3: `generateSSLConfig` returns no SSL block exactly when the TLS
block is nil or its secret name is empty; with TLS and a non-empty secret, an
empty resolved pem filename yields the missing-secret sentinel for both
certificate and key with ciphers `NULL`, and a non-empty pem filename is used
directly with empty ciphers. -/
theorem claim3_generate_ssl_config (cfgParams : ConfigParams) (tls : Option TLSCr)
    (pem : String) :
    (generateSSLConfig tls pem cfgParams = none
      ↔ tls = none ∨ ∃ t, tls = some t ∧ t.Secret = "")
    ∧ (∀ t, tls = some t → t.Secret ≠ "" → pem = "" →
        generateSSLConfig tls pem cfgParams
          = some ⟨cfgParams.HTTP2, pemFileNameForMissingTLSSecret, pemFileNameForMissingTLSSecret, "NULL"⟩)
    ∧ (∀ t, tls = some t → t.Secret ≠ "" → pem ≠ "" →
        generateSSLConfig tls pem cfgParams = some ⟨cfgParams.HTTP2, pem, pem, ""⟩) := by
  rcases tls with _ | t
  · refine ⟨by simp [generateSSLConfig], ?_, ?_⟩ <;> intro t ht <;> exact absurd ht (by simp)
  · refine ⟨?_, ?_, ?_⟩
    · by_cases hs : t.Secret = ""
      · simp [generateSSLConfig, hs]
      · by_cases hp : pem = "" <;> simp [generateSSLConfig, hs, hp]
    · rintro t' ht hs hp
      injection ht with ht; subst ht; subst hp
      simp [generateSSLConfig, hs]
    · rintro t' ht hs hp
      injection ht with ht; subst ht
      simp [generateSSLConfig, hs, hp]

/-- Claim C3 witness: the theorem applied at a concrete TLS block with a
missing secret, with a present pem filename, and with no TLS block. -/
theorem claim3_witness :
    generateSSLConfig (some ⟨"secret", none⟩) "" cfgW
      = some ⟨cfgW.HTTP2, pemFileNameForMissingTLSSecret, pemFileNameForMissingTLSSecret, "NULL"⟩
    ∧ generateSSLConfig (some ⟨"secret", none⟩) "tls.pem" cfgW
      = some ⟨cfgW.HTTP2, "tls.pem", "tls.pem", ""⟩
    ∧ generateSSLConfig none "tls.pem" cfgW = none :=
  ⟨(claim3_generate_ssl_config cfgW (some ⟨"secret", none⟩) "").2.1 ⟨"secret", none⟩ rfl
      (by decide) rfl,
   (claim3_generate_ssl_config cfgW (some ⟨"secret", none⟩) "tls.pem").2.2 ⟨"secret", none⟩ rfl
      (by decide) (by decide),
   (claim3_generate_ssl_config cfgW none "tls.pem").1.mpr (Or.inl rfl)⟩

/-- Claim C6: with the OSS flag, `rejectPlusResourcesInOSS` produces a
Forbidden error at the corresponding child path exactly for each present
commercial-only field (healthCheck, slowStart, sessionCookie, queue), and
produces nothing but Forbidden errors; with the Plus flag it produces no
error at all. -/
theorem claim6_oss_gating (u : UpstreamCr) (idxPath : FPath) :
    rejectPlusResourcesInOSS u idxPath true = []
    ∧ (u.HealthCheck.isSome ↔
        mkForbidden (FPath.child idxPath "healthCheck") "active health checks are only supported in NGINX Plus"
          ∈ rejectPlusResourcesInOSS u idxPath false)
    ∧ (u.SlowStart ≠ "" ↔
        mkForbidden (FPath.child idxPath "slow-start") "slow start is only supported in NGINX Plus"
          ∈ rejectPlusResourcesInOSS u idxPath false)
    ∧ (u.SessionCookie.isSome ↔
        mkForbidden (FPath.child idxPath "sessionCookie") "sticky cookies are only supported in NGINX Plus"
          ∈ rejectPlusResourcesInOSS u idxPath false)
    ∧ (u.Queue.isSome ↔
        mkForbidden (FPath.child idxPath "queue") "queue is only supported in NGINX Plus"
          ∈ rejectPlusResourcesInOSS u idxPath false)
    ∧ (rejectPlusResourcesInOSS u idxPath false).all
        (fun e => decide (e.typ = ErrType.forbidden)) = true := by
  refine ⟨rfl, ?_, ?_, ?_, ?_, ?_⟩ <;>
    simp only [rejectPlusResourcesInOSS, if_false, Bool.false_eq_true, mkForbidden,
      List.mem_append, List.all_append] <;>
    by_cases h₁ : u.HealthCheck.isSome <;>
    by_cases h₂ : u.SlowStart = "" <;>
    by_cases h₃ : u.SessionCookie.isSome <;>
    by_cases h₄ : u.Queue.isSome <;>
    simp [h₁, h₂, h₃, h₄, FieldError.mk.injEq, FPath.child.injEq]

/-- Claim C6 witness: the theorem applied at a concrete upstream carrying a
health check, evaluating both the Plus and the OSS sides. -/
theorem claim6_witness :
    rejectPlusResourcesInOSS upPlusW (FPath.root "upstreams") true = []
    ∧ mkForbidden (FPath.child (FPath.root "upstreams") "healthCheck")
        "active health checks are only supported in NGINX Plus"
        ∈ rejectPlusResourcesInOSS upPlusW (FPath.root "upstreams") false :=
  ⟨(claim6_oss_gating upPlusW (FPath.root "upstreams")).1,
   (claim6_oss_gating upPlusW (FPath.root "upstreams")).2.1.mp (by decide)⟩

/-- Claim C8: `GenerateVirtualServerConfig` is deterministic — two invocations
on equal snapshots, pem filenames, parameters and flags produce equal
configurations and equal warning collections. The embedding witnesses that
the source is a pure function of its inputs: its only map iterations are over
slices or single-key reads, so no iteration-order nondeterminism reaches the
output. -/
theorem claim8_deterministic (ext : Ext) (cfgParams : ConfigParams)
    (isPlus isResolverConfigured : Bool) (vsx₁ vsx₂ : VirtualServerEx)
    (pem₁ pem₂ : String) (hv : vsx₁ = vsx₂) (hp : pem₁ = pem₂) :
    generateVirtualServerConfig ext cfgParams isPlus isResolverConfigured vsx₁ pem₁
      = generateVirtualServerConfig ext cfgParams isPlus isResolverConfigured vsx₂ pem₂ := by
  subst hv; subst hp; rfl

/-- Claim C8 witness: the theorem applied at a concrete snapshot. -/
theorem claim8_witness :
    generateVirtualServerConfig extW cfgW false false vsxEpW "tls.pem"
      = generateVirtualServerConfig extW cfgW false false vsxEpW "tls.pem" :=
  claim8_deterministic extW cfgW false false vsxEpW vsxEpW "tls.pem" "tls.pem" rfl rfl

/-- Claim C9: generated upstreams take their keepalive, max-fails and
max-conns from the upstream pointer when set — an explicit 0 included — and
from the fleet default otherwise, and a generated proxying location's
`HasKeepalive` flag is true exactly when the effective keepalive value is
nonzero. -/
theorem claim9_pointer_or_default (isPlus : Bool) (cfgParams : ConfigParams)
    (owner : Owner) (upstreamName : String) (u : UpstreamCr) (isExt : Bool)
    (endpoints : List String) (path : String) :
    ((generateUpstream isPlus cfgParams owner upstreamName u isExt endpoints).1.Keepalive
        = generateIntFromPointer u.Keepalive cfgParams.Keepalive)
    ∧ ((generateUpstream isPlus cfgParams owner upstreamName u isExt endpoints).1.MaxFails
        = generateIntFromPointer u.MaxFails cfgParams.MaxFails)
    ∧ ((generateUpstream isPlus cfgParams owner upstreamName u isExt endpoints).1.MaxConns
        = generateIntFromPointer u.MaxConns cfgParams.MaxConns)
    ∧ (∀ (n d : Int), generateIntFromPointer (some n) d = n)
    ∧ (∀ (d : Int), generateIntFromPointer none d = d)
    ∧ ((generateLocationForProxying path upstreamName u cfgParams).HasKeepalive
        = upstreamHasKeepalive u cfgParams)
    ∧ (upstreamHasKeepalive u cfgParams
        = decide (generateIntFromPointer u.Keepalive cfgParams.Keepalive ≠ 0)) := by
  refine ⟨?_, ?_, ?_, fun n d => rfl, fun d => rfl, rfl, ?_⟩
  · cases isPlus <;> rfl
  · cases isPlus <;> rfl
  · cases isPlus <;> rfl
  · unfold upstreamHasKeepalive generateIntFromPointer
    cases u.Keepalive <;> simp

/-! ## Claim C10: the dollar scan never reads out of bounds -/

/-- The cons-step equation of `dollarScan`. -/
theorem dollarScan_cons (fieldPath : FPath) (str : String) (c : Char) (rest : List Char) :
    dollarScan fieldPath str (c :: rest)
      = (if c = '$' then
          if rest.headD (Char.ofNat 0) ≠ lbrace then some (mkInvalid fieldPath str bracesMsg)
          else if ¬rbrace ∈ rest then some (mkInvalid fieldPath str bracesMsg)
          else dollarScan fieldPath str rest
        else dollarScan fieldPath str rest) := rfl

/-- The cons-step equation of `dollarScanRt`. -/
theorem dollarScanRt_cons (fieldPath : FPath) (str : String) (c : Char) (rest : List Char) :
    dollarScanRt fieldPath str (c :: rest)
      = (if c = '$' then
          if rest.isEmpty then none
          else if rest.headD (Char.ofNat 0) ≠ lbrace then some (some (mkInvalid fieldPath str bracesMsg))
          else if ¬rbrace ∈ rest then some (some (mkInvalid fieldPath str bracesMsg))
          else dollarScanRt fieldPath str rest
        else dollarScanRt fieldPath str rest) := rfl

/-- When the scanned characters do not end in a dollar, the runtime-explicit
scan never panics and agrees with the total scan. -/
theorem dollarScanRt_eq_dollarScan (fieldPath : FPath) (str : String) :
    ∀ l : List Char, l.getLast? ≠ some '$' →
      dollarScanRt fieldPath str l = some (dollarScan fieldPath str l) := by
  intro l
  induction l with
  | nil => intro _h; rfl
  | cons c rest ih =>
    intro h
    rw [dollarScan_cons, dollarScanRt_cons]
    by_cases hc : c = '$'
    · rw [if_pos hc, if_pos hc]
      cases rest with
      | nil => exact absurd (by simp [List.getLast?, hc]) h
      | cons c₁ t =>
        have hrest : (c₁ :: t).getLast? ≠ some '$' := by
          rwa [List.getLast?_cons_cons] at h
        rw [if_neg (by simp)]
        simp only [List.headD_cons]
        by_cases h₁ : c₁ = lbrace
        · subst h₁
          by_cases h₂ : rbrace ∈ lbrace :: t
          · simp [h₂, ih hrest]
          · simp [h₂]
        · simp [h₁]
    · rw [if_neg hc, if_neg hc]
      cases rest with
      | nil => rfl
      | cons c₁ t =>
        have hrest : (c₁ :: t).getLast? ≠ some '$' := by
          rwa [List.getLast?_cons_cons] at h
        exact ih hrest

/-- Claim C10: `validateStringWithVariables` is total — on every input string
the runtime-explicit rendering returns (it never hits the `str[i+1]` panic,
because a string ending in `$` is rejected by the preceding suffix check) and
its result is exactly the error list of the embedded function. -/
theorem claim10_no_out_of_bounds (ext : Ext) (str : String) (fieldPath : FPath)
    (validVars specialVars : List String) :
    validateStringWithVariablesRt ext str fieldPath validVars specialVars
      = some (validateStringWithVariables ext str fieldPath validVars specialVars) := by
  unfold validateStringWithVariablesRt validateStringWithVariables
  by_cases h : hasSuffixDollar str.data
  · simp [h]
  · have h' : str.data.getLast? ≠ some '$' := by
      simpa [hasSuffixDollar] using h
    rw [dollarScanRt_eq_dollarScan fieldPath str str.data h']
    simp only [h, Bool.false_eq_true, if_false]
    cases dollarScan fieldPath str str.data <;> simp

/-! ## Claim C1: the shape of the main map of a matches route -/

/-- One main-map parameter is produced per match. -/
theorem mainMapParamsAux_length (vn : VariableNamer) (index scIndex : Nat) :
    ∀ (ms : List MatchCr) (i sc : Nat),
      (mainMapParamsAux vn index scIndex i sc ms).length = ms.length := by
  intro ms
  induction ms with
  | nil => intro i sc; rfl
  | cons m rest ih =>
    intro i sc
    by_cases h : m.Splits.isEmpty <;> simp [mainMapParamsAux, h, ih]

/-- Unfolding `countMatchesWithSplits` over a cons. -/
theorem countMatchesWithSplits_cons (m : MatchCr) (rest : List MatchCr) :
    countMatchesWithSplits (m :: rest)
      = (if ¬m.Splits.isEmpty then 1 else 0) + countMatchesWithSplits rest := by
  by_cases h : m.Splits.isEmpty
  · have h' : m.Splits = [] := List.isEmpty_iff.mp h
    simp [countMatchesWithSplits, List.filter_cons, h', h]
  · have h' : ¬m.Splits = [] := fun hh => h (by simp [hh])
    simp [countMatchesWithSplits, List.filter_cons, h', h, Nat.add_comm]

/-- The `k`-th main-map parameter: its pattern holds `i + k` zeros and its
result is the match's named location, or the split-client variable at the
index counting the split-carrying matches before it. -/
theorem mainMapParamsAux_get (vn : VariableNamer) (index scIndex : Nat) :
    ∀ (ms : List MatchCr) (i sc k : Nat) (m : MatchCr), ms.get? k = some m →
      (mainMapParamsAux vn index scIndex i sc ms).get? k
        = some ⟨"~^" ++ strRepeat "0" (i + k) ++ "1",
            if ¬m.Splits.isEmpty then
              getNameForSplitClientVariable vn
                (scIndex + sc + countMatchesWithSplits (ms.take k))
            else "@matches_" ++ toString index ++ "_match_" ++ toString (i + k)⟩ := by
  intro ms
  induction ms with
  | nil => intro i sc k m hk; simp at hk
  | cons m₀ rest ih =>
    intro i sc k m hk
    cases k with
    | zero =>
      rw [List.get?_cons_zero] at hk
      injection hk with hk; subst hk
      by_cases h : m₀.Splits.isEmpty <;>
        simp [mainMapParamsAux, h, countMatchesWithSplits]
    | succ k =>
      rw [List.get?_cons_succ] at hk
      rw [List.take_succ_cons, countMatchesWithSplits_cons]
      by_cases h : m₀.Splits.isEmpty
      · rw [show mainMapParamsAux vn index scIndex i sc (m₀ :: rest)
            = ⟨"~^" ++ strRepeat "0" i ++ "1",
                "@matches_" ++ toString index ++ "_match_" ++ toString i⟩
              :: mainMapParamsAux vn index scIndex (i + 1) sc rest by
          simp [mainMapParamsAux, h]]
        rw [List.get?_cons_succ, ih (i + 1) sc k m hk]
        have e₁ : i + 1 + k = i + (k + 1) := by omega
        have e₂ : (if ¬m₀.Splits.isEmpty then 1 else 0) + countMatchesWithSplits (rest.take k)
            = countMatchesWithSplits (rest.take k) := by simp [h]
        rw [e₁, e₂]
      · rw [show mainMapParamsAux vn index scIndex i sc (m₀ :: rest)
            = ⟨"~^" ++ strRepeat "0" i ++ "1",
                getNameForSplitClientVariable vn (scIndex + sc)⟩
              :: mainMapParamsAux vn index scIndex (i + 1) (sc + 1) rest by
          simp [mainMapParamsAux, h]]
        rw [List.get?_cons_succ, ih (i + 1) (sc + 1) k m hk]
        have e₁ : i + 1 + k = i + (k + 1) := by omega
        have e₂ : scIndex + (sc + 1) + countMatchesWithSplits (rest.take k)
            = scIndex + sc
              + ((if ¬m₀.Splits.isEmpty then 1 else 0) + countMatchesWithSplits (rest.take k)) := by
          rw [if_pos h]
          omega
        rw [e₁, e₂]

/-- Claim C1: for a route with `n` matches, the main map of
`generateMatchesConfig` (the last emitted map) has exactly `n + 1` parameters
in order: the `k`-th has pattern tilde-caret, `k` zeros, then `1`, and results
in the named location of match `k` — or, when match `k` has splits, the
split-client variable allocated for its nested split-client — and the final
parameter is `default`, resulting in the default named location — or, when the
route has top-level splits, the split-client variable of the default splits. -/
theorem claim1_main_map_shape (route : RouteCr) (upsNamer : UpstreamNamer)
    (crUpstreams : List (String × UpstreamCr)) (vn : VariableNamer)
    (index scIndex : Nat) (cfgParams : ConfigParams)
    (hne : route.Matches ≠ []) :
    ∃ mm : MapV2,
      (generateMatchesConfig route upsNamer crUpstreams vn index scIndex cfgParams).Maps.getLast?
          = some mm
      ∧ mm.Parameters.length = route.Matches.length + 1
      ∧ (∀ k m, route.Matches.get? k = some m →
          mm.Parameters.get? k = some ⟨"~^" ++ strRepeat "0" k ++ "1",
            if ¬m.Splits.isEmpty then
              getNameForSplitClientVariable vn
                (scIndex + countMatchesWithSplits (route.Matches.take k))
            else "@matches_" ++ toString index ++ "_match_" ++ toString k⟩)
      ∧ mm.Parameters.get? route.Matches.length = some ⟨"default",
          if ¬route.Splits.isEmpty then
            getNameForSplitClientVariable vn (scIndex + countMatchesWithSplits route.Matches)
          else "@matches_" ++ toString index ++ "_default"⟩ := by
  refine ⟨⟨mainMapSource vn index route.Matches,
    getNameForVariableForMatchesRouteMainMap vn index,
    mainMapParamsAux vn index scIndex 0 0 route.Matches
      ++ [⟨"default",
            if ¬route.Splits.isEmpty then
              getNameForSplitClientVariable vn (scIndex + countMatchesWithSplits route.Matches)
            else "@matches_" ++ toString index ++ "_default"⟩]⟩, ?_, ?_, ?_, ?_⟩
  · rw [show (generateMatchesConfig route upsNamer crUpstreams vn index scIndex cfgParams).Maps
        = matchesCondMapsAux vn index 0 route.Matches
          ++ [⟨mainMapSource vn index route.Matches,
                getNameForVariableForMatchesRouteMainMap vn index,
                mainMapParamsAux vn index scIndex 0 0 route.Matches
                  ++ [⟨"default",
                        if ¬route.Splits.isEmpty then
                          getNameForSplitClientVariable vn
                            (scIndex + countMatchesWithSplits route.Matches)
                        else "@matches_" ++ toString index ++ "_default"⟩]⟩] from rfl]
    exact List.getLast?_concat _
  · simp [mainMapParamsAux_length]
  · intro k m hk
    have hlt : k < route.Matches.length := List.get?_eq_some.mp hk |>.1
    have hlt' : k < (mainMapParamsAux vn index scIndex 0 0 route.Matches).length := by
      rwa [mainMapParamsAux_length]
    show (mainMapParamsAux vn index scIndex 0 0 route.Matches ++ _).get? k = _
    rw [List.get?_append hlt', mainMapParamsAux_get vn index scIndex route.Matches 0 0 k m hk]
    simp
  · have hl : (mainMapParamsAux vn index scIndex 0 0 route.Matches).length
        = route.Matches.length := mainMapParamsAux_length vn index scIndex route.Matches 0 0
    show (mainMapParamsAux vn index scIndex 0 0 route.Matches ++ _).get? route.Matches.length = _
    rw [List.get?_append_right (by omega)]
    rw [hl]
    simp

/-- Claim C1 witness: the theorem applied at the concrete one-match route. -/
theorem claim1_witness :
    ∃ mm : MapV2,
      (generateMatchesConfig matchRouteW unW [] vnW 0 0 cfgW).Maps.getLast? = some mm
      ∧ mm.Parameters.length = matchRouteW.Matches.length + 1
      ∧ (∀ k m, matchRouteW.Matches.get? k = some m →
          mm.Parameters.get? k = some ⟨"~^" ++ strRepeat "0" k ++ "1",
            if ¬m.Splits.isEmpty then
              getNameForSplitClientVariable vnW
                (0 + countMatchesWithSplits (matchRouteW.Matches.take k))
            else "@matches_" ++ toString 0 ++ "_match_" ++ toString k⟩)
      ∧ mm.Parameters.get? matchRouteW.Matches.length = some ⟨"default",
          if ¬matchRouteW.Splits.isEmpty then
            getNameForSplitClientVariable vnW (0 + countMatchesWithSplits matchRouteW.Matches)
          else "@matches_" ++ toString 0 ++ "_default"⟩ :=
  claim1_main_map_shape matchRouteW unW [] vnW 0 0 cfgW (by decide)

/-! ## Claim C5: the shape of the per-condition maps -/

/-- The number of conditions before match `i`: the flat position of the first
condition map of match `i` in the emitted map list. -/
def condFlatIdx (ms : List MatchCr) (i : Nat) : Nat :=
  ((ms.take i).map (fun m => m.Conditions.length)).sum

/-- The total number of conditions of all matches. -/
def condTotal (ms : List MatchCr) : Nat :=
  (ms.map (fun m => m.Conditions.length)).sum

/-- One map per condition in the inner loop. -/
theorem condMapsForMatchAux_length (vn : VariableNamer) (index i total : Nat) :
    ∀ (conds : List ConditionCr) (j : Nat),
      (condMapsForMatchAux vn index i total j conds).length = conds.length := by
  intro conds
  induction conds with
  | nil => intro j; rfl
  | cons c rest ih => intro j; simp [condMapsForMatchAux, ih]

/-- The total length of the outer condition-map loop. -/
theorem matchesCondMapsAux_length (vn : VariableNamer) (index : Nat) :
    ∀ (ms : List MatchCr) (i : Nat),
      (matchesCondMapsAux vn index i ms).length = condTotal ms := by
  intro ms
  induction ms with
  | nil => intro i; rfl
  | cons m rest ih =>
    intro i
    simp [matchesCondMapsAux, condTotal, condMapsForMatchAux_length, ih,
      List.length_append]

/-- The `j`-th map of the inner condition loop. -/
theorem condMapsForMatchAux_get (vn : VariableNamer) (index i total : Nat) :
    ∀ (conds : List ConditionCr) (j₀ j : Nat) (c : ConditionCr),
      conds.get? j = some c →
      (condMapsForMatchAux vn index i total j₀ conds).get? j
        = some ⟨getNameForSourceForMatchesRouteMapFromCondition c,
            getNameForVariableForMatchesRouteMap vn index i (j₀ + j),
            generateParametersForMatchesRouteMap c.Value
              (if j₀ + j < total - 1 then
                getNameForVariableForMatchesRouteMap vn index i (j₀ + j + 1)
               else "1")⟩ := by
  intro conds
  induction conds with
  | nil => intro j₀ j c hj; simp at hj
  | cons c₀ rest ih =>
    intro j₀ j c hj
    cases j with
    | zero =>
      rw [List.get?_cons_zero] at hj
      injection hj with hj; subst hj
      rfl
    | succ j =>
      rw [List.get?_cons_succ] at hj
      rw [show condMapsForMatchAux vn index i total j₀ (c₀ :: rest)
          = ⟨getNameForSourceForMatchesRouteMapFromCondition c₀,
              getNameForVariableForMatchesRouteMap vn index i j₀,
              generateParametersForMatchesRouteMap c₀.Value
                (if j₀ < total - 1 then
                  getNameForVariableForMatchesRouteMap vn index i (j₀ + 1)
                 else "1")⟩ :: condMapsForMatchAux vn index i total (j₀ + 1) rest from rfl]
      rw [List.get?_cons_succ, ih (j₀ + 1) j c hj]
      have e₁ : j₀ + 1 + j = j₀ + (j + 1) := by omega
      rw [e₁]

/-- The flat position advances by the head's condition count. -/
theorem condFlatIdx_cons_succ (m : MatchCr) (rest : List MatchCr) (i : Nat) :
    condFlatIdx (m :: rest) (i + 1) = m.Conditions.length + condFlatIdx rest i := by
  simp [condFlatIdx, List.take_succ_cons]

/-- Flat positions of valid condition coordinates stay in range. -/
theorem condFlatIdx_add_lt (ms : List MatchCr) :
    ∀ (i j : Nat) (m : MatchCr), ms.get? i = some m → j < m.Conditions.length →
      condFlatIdx ms i + j < condTotal ms := by
  induction ms with
  | nil => intro i j m hi _; simp at hi
  | cons m₀ rest ih =>
    intro i j m hi hj
    cases i with
    | zero =>
      rw [List.get?_cons_zero] at hi
      injection hi with hi
      subst hi
      have h0 : condFlatIdx (m₀ :: rest) 0 = 0 := by simp [condFlatIdx]
      rw [h0]
      simp only [condTotal, List.map_cons, List.sum_cons]
      omega
    | succ i =>
      rw [List.get?_cons_succ] at hi
      rw [condFlatIdx_cons_succ]
      have := ih i j m hi hj
      simp only [condTotal, List.map_cons, List.sum_cons]
      simp only [condTotal] at this
      omega

/-- The map generated for condition `j` of match `i`. -/
theorem matchesCondMapsAux_get (vn : VariableNamer) (index : Nat) :
    ∀ (ms : List MatchCr) (i₀ i j : Nat) (m : MatchCr) (c : ConditionCr),
      ms.get? i = some m → m.Conditions.get? j = some c →
      (matchesCondMapsAux vn index i₀ ms).get? (condFlatIdx ms i + j)
        = some ⟨getNameForSourceForMatchesRouteMapFromCondition c,
            getNameForVariableForMatchesRouteMap vn index (i₀ + i) j,
            generateParametersForMatchesRouteMap c.Value
              (if j < m.Conditions.length - 1 then
                getNameForVariableForMatchesRouteMap vn index (i₀ + i) (j + 1)
               else "1")⟩ := by
  intro ms
  induction ms with
  | nil => intro i₀ i j m c hi _; simp at hi
  | cons m₀ rest ih =>
    intro i₀ i j m c hi hj
    cases i with
    | zero =>
      rw [List.get?_cons_zero] at hi
      injection hi with hi
      subst hi
      have h0 : condFlatIdx (m₀ :: rest) 0 = 0 := by simp [condFlatIdx]
      rw [h0, Nat.zero_add]
      have hjlt : j < m₀.Conditions.length := (List.get?_eq_some.mp hj).1
      rw [show matchesCondMapsAux vn index i₀ (m₀ :: rest)
          = condMapsForMatchAux vn index i₀ m₀.Conditions.length 0 m₀.Conditions
            ++ matchesCondMapsAux vn index (i₀ + 1) rest from rfl]
      rw [List.get?_append (by rwa [condMapsForMatchAux_length])]
      rw [condMapsForMatchAux_get vn index i₀ m₀.Conditions.length m₀.Conditions 0 j c hj]
      simp
    | succ i =>
      rw [List.get?_cons_succ] at hi
      rw [condFlatIdx_cons_succ]
      rw [show matchesCondMapsAux vn index i₀ (m₀ :: rest)
          = condMapsForMatchAux vn index i₀ m₀.Conditions.length 0 m₀.Conditions
            ++ matchesCondMapsAux vn index (i₀ + 1) rest from rfl]
      have hlen : (condMapsForMatchAux vn index i₀ m₀.Conditions.length 0 m₀.Conditions).length
          = m₀.Conditions.length := condMapsForMatchAux_length vn index i₀ m₀.Conditions.length m₀.Conditions 0
      rw [List.get?_append_right (by omega)]
      rw [hlen]
      have e₁ : m₀.Conditions.length + condFlatIdx rest i + j - m₀.Conditions.length
          = condFlatIdx rest i + j := by omega
      rw [e₁, ih (i₀ + 1) i j m c hi hj]
      have e₂ : i₀ + 1 + i = i₀ + (i + 1) := by omega
      rw [e₂]

/-- The negation flag of `generateValueForMatchesRouteMap` is set exactly for
a non-empty value beginning with the exclamation mark. -/
theorem generateValueForMatchesRouteMap_snd (v : String) :
    (generateValueForMatchesRouteMap v).2 = true ↔ (v.length ≠ 0 ∧ v.front = '!') := by
  by_cases h0 : v.length = 0
  · simp [generateValueForMatchesRouteMap, h0]
  · by_cases hneg : v.front = '!'
    · by_cases hsp : v.drop 1 ∈ specialMapParameters <;>
        simp [generateValueForMatchesRouteMap, h0, hneg, hsp]
    · by_cases hsp : v ∈ specialMapParameters <;>
        simp [generateValueForMatchesRouteMap, h0, hneg, hsp]

/-- For a negated value the emitted value form is computed from the value with
its leading exclamation mark removed. -/
theorem generateValueForMatchesRouteMap_fst_neg (v : String)
    (h0 : v.length ≠ 0) (hneg : v.front = '!') :
    (generateValueForMatchesRouteMap v).1
      = (if v.drop 1 ∈ specialMapParameters then "\\" ++ v.drop 1
         else "\"" ++ v.drop 1 ++ "\"") := by
  by_cases hsp : v.drop 1 ∈ specialMapParameters <;>
    simp [generateValueForMatchesRouteMap, h0, hneg, hsp]

/-- Claim C5: the per-condition map for condition `j` of match `i` has exactly
two parameters — the value form mapping to the successful result and `default`
mapping to `0` — where the successful result is `1` for the last condition and
otherwise the variable of condition `j + 1`; a leading exclamation mark in the
value swaps the two result fields and the value form is computed from the
value with the leading mark removed. -/
theorem claim5_condition_maps (route : RouteCr) (upsNamer : UpstreamNamer)
    (crUpstreams : List (String × UpstreamCr)) (vn : VariableNamer)
    (index scIndex : Nat) (cfgParams : ConfigParams) :
    ∀ (i j : Nat) (m : MatchCr) (c : ConditionCr),
      route.Matches.get? i = some m → m.Conditions.get? j = some c →
      ((generateMatchesConfig route upsNamer crUpstreams vn index scIndex cfgParams).Maps.get?
          (condFlatIdx route.Matches i + j)
        = some ⟨getNameForSourceForMatchesRouteMapFromCondition c,
            getNameForVariableForMatchesRouteMap vn index i j,
            [⟨(generateValueForMatchesRouteMap c.Value).1,
               if (generateValueForMatchesRouteMap c.Value).2 then "0"
               else if j + 1 < m.Conditions.length then
                 getNameForVariableForMatchesRouteMap vn index i (j + 1)
               else "1"⟩,
             ⟨"default",
               if (generateValueForMatchesRouteMap c.Value).2 then
                 (if j + 1 < m.Conditions.length then
                   getNameForVariableForMatchesRouteMap vn index i (j + 1)
                  else "1")
               else "0"⟩]⟩)
      ∧ ((generateValueForMatchesRouteMap c.Value).2 = true
          ↔ (c.Value.length ≠ 0 ∧ c.Value.front = '!'))
      ∧ (c.Value.length ≠ 0 → c.Value.front = '!' →
          (generateValueForMatchesRouteMap c.Value).1
            = (if c.Value.drop 1 ∈ specialMapParameters then "\\" ++ c.Value.drop 1
               else "\"" ++ c.Value.drop 1 ++ "\"")) := by
  intro i j m c hi hj
  refine ⟨?_, generateValueForMatchesRouteMap_snd c.Value,
    generateValueForMatchesRouteMap_fst_neg c.Value⟩
  have hjlt : j < m.Conditions.length := (List.get?_eq_some.mp hj).1
  rw [show (generateMatchesConfig route upsNamer crUpstreams vn index scIndex cfgParams).Maps
      = matchesCondMapsAux vn index 0 route.Matches
        ++ [⟨mainMapSource vn index route.Matches,
              getNameForVariableForMatchesRouteMainMap vn index,
              mainMapParamsAux vn index scIndex 0 0 route.Matches
                ++ [⟨"default",
                      if ¬route.Splits.isEmpty then
                        getNameForSplitClientVariable vn
                          (scIndex + countMatchesWithSplits route.Matches)
                      else "@matches_" ++ toString index ++ "_default"⟩]⟩] from rfl]
  have hbound : condFlatIdx route.Matches i + j
      < (matchesCondMapsAux vn index 0 route.Matches).length := by
    rw [matchesCondMapsAux_length]
    exact condFlatIdx_add_lt route.Matches i j m hi hjlt
  rw [List.get?_append hbound]
  rw [matchesCondMapsAux_get vn index route.Matches 0 i j m c hi hj]
  rw [show generateParametersForMatchesRouteMap c.Value
        (if j < m.Conditions.length - 1 then
          getNameForVariableForMatchesRouteMap vn index (0 + i) (j + 1)
         else "1")
      = [⟨(generateValueForMatchesRouteMap c.Value).1,
           if (generateValueForMatchesRouteMap c.Value).2 then "0"
           else (if j < m.Conditions.length - 1 then
             getNameForVariableForMatchesRouteMap vn index (0 + i) (j + 1)
            else "1")⟩,
         ⟨"default",
           if (generateValueForMatchesRouteMap c.Value).2 then
             (if j < m.Conditions.length - 1 then
               getNameForVariableForMatchesRouteMap vn index (0 + i) (j + 1)
              else "1")
           else "0"⟩] from rfl]
  by_cases hlast : j + 1 < m.Conditions.length
  · have h₁ : j < m.Conditions.length - 1 := by omega
    simp only [if_pos h₁, if_pos hlast]
    simp
  · have h₁ : ¬j < m.Conditions.length - 1 := by omega
    simp only [if_neg h₁, if_neg hlast]
    simp

/-- Claim C5 witness: the theorem applied at the concrete one-match route and
its single condition. -/
theorem claim5_witness :
    (generateMatchesConfig matchRouteW unW [] vnW 0 0 cfgW).Maps.get?
        (condFlatIdx matchRouteW.Matches 0 + 0)
      = some ⟨getNameForSourceForMatchesRouteMapFromCondition ⟨"x-version", "", "", "", "v2"⟩,
          getNameForVariableForMatchesRouteMap vnW 0 0 0,
          [⟨"\"v2\"", "1"⟩, ⟨"default", "0"⟩]⟩ := by
  have h := (claim5_condition_maps matchRouteW unW [] vnW 0 0 cfgW 0 0
    ⟨[⟨"x-version", "", "", "", "v2"⟩], some ⟨"tea-v2", none, none⟩, []⟩
    ⟨"x-version", "", "", "", "v2"⟩ rfl rfl).1
  rw [h]
  rfl

/-! ## Claim C4: emptiness of `validateSplits` -/

/-- A flattened indexed map is empty exactly when every piece is. -/
theorem flatten_mapIdx_eq_nil {α β : Type} :
    ∀ (f : Nat → α → List β) (l : List α),
      (l.mapIdx f).flatten = [] ↔ ∀ i (h : i < l.length), f i (l.get ⟨i, h⟩) = [] := by
  intro f l
  induction l generalizing f with
  | nil => simp
  | cons a t ih =>
    rw [List.mapIdx_cons, List.flatten_cons, List.append_eq_nil]
    constructor
    · rintro ⟨h₀, ht⟩ i hi
      cases i with
      | zero => simpa using h₀
      | succ i =>
        have := (ih (fun i => f (i + 1))).mp ht i (by simpa using hi)
        simpa using this
    · intro h
      refine ⟨by simpa using h 0 (by simp), ?_⟩
      refine (ih (fun i => f (i + 1))).mpr ?_
      intro i hi
      simpa using h (i + 1) (by simpa using hi)

/-- `isInRange` reports nothing exactly on in-range values. -/
theorem isInRange_eq_nil {v lo hi : Int} : isInRange v lo hi = [] ↔ (lo ≤ v ∧ v ≤ hi) := by
  unfold isInRange
  split <;> simp_all

/-- Claim C4: `validateSplits` returns an empty error list exactly when the
block has at least two splits, every weight lies in 1..99, every split has a
present and valid action, and the weights sum to exactly 100. -/
theorem claim4_validate_splits_iff (ext : Ext) (splits : List SplitCr)
    (fieldPath : FPath) (upstreamNames : List String) :
    validateSplits ext splits fieldPath upstreamNames = []
    ↔ (2 ≤ splits.length
       ∧ (∀ i (h : i < splits.length),
           1 ≤ (splits.get ⟨i, h⟩).Weight ∧ (splits.get ⟨i, h⟩).Weight ≤ 99
           ∧ (splits.get ⟨i, h⟩).Action.isSome = true
           ∧ validateAction ext ((splits.get ⟨i, h⟩).Action.getD ActionCr.zero)
               (FPath.child (FPath.idx fieldPath i) "action") upstreamNames = [])
       ∧ (splits.map (fun s => s.Weight)).sum = 100) := by
  by_cases hlen : splits.length < 2
  · rw [show validateSplits ext splits fieldPath upstreamNames
        = [mkInvalid fieldPath "" "must include at least 2 splits"] from by
      unfold validateSplits; rw [if_pos hlen]]
    constructor
    · intro h; simp at h
    · rintro ⟨h₂, _, _⟩; omega
  · rw [show validateSplits ext splits fieldPath upstreamNames
        = (splits.mapIdx (fun i s =>
            (isInRange s.Weight 1 99).map
              (fun msg => mkInvalid (FPath.child (FPath.idx fieldPath i) "weight") (toString s.Weight) msg)
            ++ (match s.Action with
                | none => [mkRequired (FPath.child (FPath.idx fieldPath i) "action") ""]
                | some a => validateAction ext a (FPath.child (FPath.idx fieldPath i) "action") upstreamNames))).flatten
          ++ (if (splits.map (fun s => s.Weight)).sum ≠ 100 then
                [mkInvalid fieldPath "" "the sum of the weights of all splits must be equal to 100"]
              else []) from by
      unfold validateSplits; rw [if_neg hlen]]
    rw [List.append_eq_nil, flatten_mapIdx_eq_nil]
    constructor
    · rintro ⟨hall, hsum⟩
      refine ⟨by omega, ?_, ?_⟩
      · intro i hi
        have h := hall i hi
        rw [List.append_eq_nil] at h
        obtain ⟨hw, ha⟩ := h
        rw [List.map_eq_nil] at hw
        have hrange := isInRange_eq_nil.mp hw
        cases hact : (splits.get ⟨i, hi⟩).Action with
        | none => rw [hact] at ha; simp at ha
        | some a =>
          rw [hact] at ha
          exact ⟨hrange.1, hrange.2, rfl, by simpa using ha⟩
      · by_contra hne
        rw [if_pos hne] at hsum
        simp at hsum
    · rintro ⟨_, hall, hsum⟩
      refine ⟨?_, by rw [if_neg (fun hne => hne hsum)]⟩
      intro i hi
      obtain ⟨hw₁, hw₂, hsome, hact⟩ := hall i hi
      rw [List.append_eq_nil]
      refine ⟨by rw [isInRange_eq_nil.mpr ⟨hw₁, hw₂⟩]; rfl, ?_⟩
      cases hacteq : (splits.get ⟨i, hi⟩).Action with
      | none => rw [hacteq] at hsome; simp at hsome
      | some a =>
        rw [hacteq] at hact
        simpa using hact

/-- Claim C4 witness: the theorem applied both ways at a concrete valid
50/50 block and at a concrete one-split block. -/
theorem claim4_witness :
    validateSplits extW
      [⟨50, some ⟨"tea", none, none⟩⟩, ⟨50, some ⟨"coffee", none, none⟩⟩]
      (FPath.root "splits") ["tea", "coffee"] = []
    ∧ validateSplits extW [⟨100, some ⟨"tea", none, none⟩⟩]
        (FPath.root "splits") ["tea"] ≠ [] :=
  ⟨(claim4_validate_splits_iff extW
      [⟨50, some ⟨"tea", none, none⟩⟩, ⟨50, some ⟨"coffee", none, none⟩⟩]
      (FPath.root "splits") ["tea", "coffee"]).mpr (by decide),
   fun h =>
    absurd ((claim4_validate_splits_iff extW [⟨100, some ⟨"tea", none, none⟩⟩]
      (FPath.root "splits") ["tea"]).mp h).1 (by decide)⟩

/-! ## Claim C7: VSR subroutes against the parent VS path -/

/-- Any subroute violating the parent-prefix requirement contributes its
error to the loop's output, whatever the duplicate-path set holds. -/
theorem subroutesLoop_mem (ext : Ext) (fieldPath : FPath) (upstreamNames : List String)
    (vsPath : String) :
    ∀ (routes : List RouteCr) (i₀ : Nat) (seen : List String) (i : Nat) (r : RouteCr),
      routes.get? i = some r →
      vsPath ≠ "" → ¬goHasPrefix r.Path vsPath → ¬isRegexOrExactMatch r.Path →
      mkInvalid (FPath.idx fieldPath (i₀ + i)) r.Path ("must start with \x27" ++ vsPath ++ "\x27")
        ∈ subroutesLoop ext fieldPath upstreamNames vsPath i₀ seen routes := by
  intro routes
  induction routes with
  | nil => intro i₀ seen i r hi; simp at hi
  | cons r₀ rest ih =>
    intro i₀ seen i r hi hne hpre hreg
    cases i with
    | zero =>
      rw [List.get?_cons_zero] at hi
      injection hi with hi
      subst hi
      simp only [subroutesLoop]
      rw [if_pos (show vsPath ≠ "" ∧ ¬goHasPrefix r₀.Path vsPath ∧ ¬isRegexOrExactMatch r₀.Path
        from ⟨hne, hpre, hreg⟩)]
      rw [if_pos (show (validateRoute ext r₀ (FPath.idx fieldPath i₀) upstreamNames true
          ++ [mkInvalid (FPath.idx fieldPath i₀) r₀.Path ("must start with \x27" ++ vsPath ++ "\x27")]).length > 0
        from by simp)]
      simp
    | succ i =>
      rw [List.get?_cons_succ] at hi
      have e₁ : i₀ + 1 + i = i₀ + (i + 1) := by omega
      have hmem : ∀ s : List String,
          mkInvalid (FPath.idx fieldPath (i₀ + (i + 1))) r.Path
              ("must start with \x27" ++ vsPath ++ "\x27")
            ∈ subroutesLoop ext fieldPath upstreamNames vsPath (i₀ + 1) s rest := by
        intro s
        have h := ih (i₀ + 1) s i r hi hne hpre hreg
        rwa [e₁] at h
      simp only [subroutesLoop]
      by_cases hval : (validateRoute ext r₀ (FPath.idx fieldPath i₀) upstreamNames true ++
          (if vsPath ≠ "" ∧ ¬goHasPrefix r₀.Path vsPath ∧ ¬isRegexOrExactMatch r₀.Path then
            [mkInvalid (FPath.idx fieldPath i₀) r₀.Path ("must start with \x27" ++ vsPath ++ "\x27")]
           else [])).length > 0
      · rw [if_pos hval]
        exact List.mem_append_right _ (hmem seen)
      · rw [if_neg hval]
        by_cases hdup : seen.contains r₀.Path
        · rw [if_pos hdup]
          exact List.mem_append_right _ (hmem seen)
        · rw [if_neg hdup]
          exact hmem (r₀.Path :: seen)

/-- Claim C7: when the parent VS path is a regex or exact match, the VSR
subroutes validate without error only if there is exactly one subroute and
its path equals the parent path; otherwise, for a non-empty parent path,
every subroute whose own path is neither regex nor exact and does not carry
the parent path as a prefix contributes an invalid error for that subroute. -/
theorem claim7_vsr_subroutes (ext : Ext) (routes : List RouteCr) (fieldPath : FPath)
    (upstreamNames : List String) (vsPath : String) :
    (isRegexOrExactMatch vsPath = true →
      validateVirtualServerRouteSubroutes ext routes fieldPath upstreamNames vsPath = [] →
      ∃ r₀, routes = [r₀] ∧ r₀.Path = vsPath)
    ∧ (isRegexOrExactMatch vsPath = false → vsPath ≠ "" →
        ∀ (i : Nat) (r : RouteCr), routes.get? i = some r →
          isRegexOrExactMatch r.Path = false → ¬goHasPrefix r.Path vsPath →
          mkInvalid (FPath.idx fieldPath i) r.Path ("must start with \x27" ++ vsPath ++ "\x27")
            ∈ validateVirtualServerRouteSubroutes ext routes fieldPath upstreamNames vsPath) := by
  constructor
  · intro ha hempty
    unfold validateVirtualServerRouteSubroutes at hempty
    rw [if_pos ha] at hempty
    rcases routes with _ | ⟨r₀, _ | ⟨r₁, t⟩⟩
    · simp at hempty
    · refine ⟨r₀, rfl, ?_⟩
      by_cases hp : r₀.Path = vsPath
      · exact hp
      · simp [hp] at hempty
    · simp at hempty
  · intro ha hne i r hi hreg hpre
    unfold validateVirtualServerRouteSubroutes
    rw [if_neg (by simp [ha])]
    simpa using subroutesLoop_mem ext fieldPath upstreamNames vsPath routes 0 [] i r hi hne hpre
      (by simp [hreg])

/-- Claim C7 witness: the theorem's two parts applied at a concrete exact-path
delegation and at a concrete prefix violation. -/
theorem claim7_witness :
    (∃ r₀, [vsrExactRouteW] = [r₀] ∧ r₀.Path = "=/tea")
    ∧ mkInvalid (FPath.idx (FPath.root "subroutes") 0) "/coffee"
        ("must start with \x27/tea\x27")
        ∈ validateVirtualServerRouteSubroutes extW [vsrBadRouteW]
            (FPath.root "subroutes") ["tea"] "/tea" :=
  ⟨(claim7_vsr_subroutes extW [vsrExactRouteW] (FPath.root "subroutes") ["tea"] "=/tea").1
      (by decide) (by decide),
   (claim7_vsr_subroutes extW [vsrBadRouteW] (FPath.root "subroutes") ["tea"] "/tea").2
      (by decide) (by decide) 0 vsrBadRouteW rfl (by decide) (by decide)⟩

end NIC
